import Mathlib

/-!
Verification development for a Telegram classifieds bot (main.py).
The data model, cache discipline, repository operations, validation and
handlers are shallowly embedded as executable Lean functions; the claim
theorems at the end of the file settle the specification claims.
-/

set_option maxRecDepth 4000

/-- A row of the user_ads table (created_at is represented by list order:
the ads list is kept newest-first, matching ORDER BY created_at DESC). -/
structure Row where
  user_id : Nat
  message_id : Nat
  message_url : String
  topic_name : String
deriving DecidableEq, Repr

/-- The persistent store: user_ads rows (newest first), banned_users
(presence = banned) and user_limits (user_id, ad_limit) upsert rows. -/
structure DB where
  ads : List Row
  banned : List Nat
  limits : List (Nat × Nat)
deriving DecidableEq, Repr

/-- Cache keys; each constructor embeds one of the Python key-string
families: user_ads:{u}, user_ad_count:{u}, ad:{m}, banned:{u},
user_limit:{u}.  The string families are disjoint and injective, which the
constructor representation models exactly. -/
inductive CKey where
  | userAds (uid : Nat)
  | adCount (uid : Nat)
  | ad (mid : Nat)
  | banned (uid : Nat)
  | userLimit (uid : Nat)
deriving DecidableEq, Repr

/-- JSON values stored in the cache by this program. -/
inductive CVal where
  | vAds (l : List (Nat × String × String))
  | vAd (a : Nat × Nat × String × String)
  | vInt (n : Nat)
  | vBool (b : Bool)
deriving DecidableEq, Repr

/-- One cache entry: key, value, absolute expiry time (set time + TTL). -/
structure CEntry where
  key : CKey
  val : CVal
  expiry : Nat
deriving DecidableEq, Repr

/-- World state: database, cache, rate-limiter timestamps, current time. -/
structure World where
  db : DB
  cache : List CEntry
  rateLim : List (Nat × List Nat)
  now : Nat
deriving DecidableEq, Repr

/-- CacheService.get: value if the key is present and unexpired. -/
def cacheGet (now : Nat) (c : List CEntry) (k : CKey) : Option CVal :=
  match c.find? (fun e => e.key == k) with
  | some e => if now < e.expiry then some e.val else none
  | none => none

/-- CacheService.set: store with expiry = now + ttl, replacing the key. -/
def cacheSet (now : Nat) (c : List CEntry) (k : CKey) (v : CVal) (ttl : Nat) : List CEntry :=
  ⟨k, v, now + ttl⟩ :: c.filter (fun e => !(e.key == k))

/-- CacheService.delete: remove the key if present. -/
def cacheDel (c : List CEntry) (k : CKey) : List CEntry :=
  c.filter (fun e => !(e.key == k))

/-- Advance the world clock by d seconds (no operation performed). -/
def advance (w : World) (d : Nat) : World :=
  { w with now := w.now + d }

/-- Rows of the given owner projected as (message_id, message_url,
topic_name), newest first — the SELECT of get_user_ads. -/
def dbAdsFor (w : World) (uid : Nat) : List (Nat × String × String) :=
  (w.db.ads.filter (fun a => a.user_id == uid)).map
    (fun a => (a.message_id, a.message_url, a.topic_name))

/-- DatabaseService.add_user_ad: INSERT; a duplicate message_id violates
the UNIQUE constraint (exception caught, returns False, cache untouched);
on success invalidates user_ads:{uid} and user_ad_count:{uid}. -/
def add_user_ad (w : World) (r : Row) : World × Bool :=
  if w.db.ads.any (fun a => a.message_id == r.message_id) then (w, false)
  else
    ({ w with
        db := { w.db with ads := r :: w.db.ads },
        cache := cacheDel (cacheDel w.cache (CKey.userAds r.user_id)) (CKey.adCount r.user_id) },
      true)

/-- DatabaseService.get_user_ads: read-through cache (TTL 300); the cached
value guards with Python truthiness, so only a non-empty cached list is a
hit. -/
def get_user_ads (w : World) (uid : Nat) : World × List (Nat × String × String) :=
  match cacheGet w.now w.cache (CKey.userAds uid) with
  | some (CVal.vAds (x :: xs)) => (w, x :: xs)
  | _ =>
    let result := dbAdsFor w uid
    ({ w with cache := cacheSet w.now w.cache (CKey.userAds uid) (CVal.vAds result) 300 },
      result)

/-- Per-topic running counters (defaultdict(int) fold) of
get_user_ads_with_counts; counts carries the occurrences already seen. -/
def overlayGo (counts : String → Nat) :
    List (Nat × String × String) → List (Nat × String × String × String)
  | [] => []
  | (mid, url, t) :: rest =>
    let n := counts t + 1
    (mid, url, t ++ " " ++ toString n, t) ::
      overlayGo (fun x => if x = t then n else counts x) rest

/-- DatabaseService.get_user_ads_with_counts: display overlay on top of
get_user_ads. -/
def get_user_ads_with_counts (w : World) (uid : Nat) :
    World × List (Nat × String × String × String) :=
  let p := get_user_ads w uid
  (p.1, overlayGo (fun _ => 0) p.2)

/-- DatabaseService.get_ad_by_message_id: read-through cache (TTL 600); a
cached tuple is always truthy, absent rows are not negatively cached. -/
def get_ad_by_message_id (w : World) (mid : Nat) :
    World × Option (Nat × Nat × String × String) :=
  match cacheGet w.now w.cache (CKey.ad mid) with
  | some (CVal.vAd a) => (w, some a)
  | _ =>
    match w.db.ads.find? (fun a => a.message_id == mid) with
    | some r =>
      let res := (r.user_id, r.message_id, r.message_url, r.topic_name)
      ({ w with cache := cacheSet w.now w.cache (CKey.ad mid) (CVal.vAd res) 600 },
        some res)
    | none => (w, none)

/-- DatabaseService.delete_user_ad: look up owner, delete the row,
invalidate user_ads:{owner}, user_ad_count:{owner} and ad:{mid}; False if
no row existed. -/
def delete_user_ad (w : World) (mid : Nat) : World × Bool :=
  match w.db.ads.find? (fun a => a.message_id == mid) with
  | some r =>
    ({ w with
        db := { w.db with ads := w.db.ads.filter (fun a => !(a.message_id == mid)) },
        cache := cacheDel (cacheDel (cacheDel w.cache (CKey.userAds r.user_id))
          (CKey.adCount r.user_id)) (CKey.ad mid) },
      true)
  | none => (w, false)

/-- DatabaseService.get_user_ad_count: read-through cache (TTL 60); the
cached-value guard is an is-not-None test, so a cached 0 is a hit. -/
def get_user_ad_count (w : World) (uid : Nat) : World × Nat :=
  match cacheGet w.now w.cache (CKey.adCount uid) with
  | some (CVal.vInt n) => (w, n)
  | _ =>
    let n := (w.db.ads.filter (fun a => a.user_id == uid)).length
    ({ w with cache := cacheSet w.now w.cache (CKey.adCount uid) (CVal.vInt n) 60 },
      n)

/-- DatabaseService.ban_user: INSERT ON CONFLICT DO NOTHING, then
invalidate banned:{uid}. -/
def ban_user (w : World) (uid : Nat) : World × Bool :=
  let banned' := if w.db.banned.contains uid then w.db.banned else uid :: w.db.banned
  ({ w with
      db := { w.db with banned := banned' },
      cache := cacheDel w.cache (CKey.banned uid) },
    true)

/-- DatabaseService.unban_user: DELETE the ban row, then invalidate
banned:{uid}. -/
def unban_user (w : World) (uid : Nat) : World × Bool :=
  ({ w with
      db := { w.db with banned := w.db.banned.filter (fun u => !(u == uid)) },
      cache := cacheDel w.cache (CKey.banned uid) },
    true)

/-- is_user_banned: read-through cache (TTL 300); an is-not-None guard, so
a cached False is a hit. -/
def is_user_banned (w : World) (uid : Nat) : World × Bool :=
  match cacheGet w.now w.cache (CKey.banned uid) with
  | some (CVal.vBool b) => (w, b)
  | _ =>
    let b := w.db.banned.contains uid
    ({ w with cache := cacheSet w.now w.cache (CKey.banned uid) (CVal.vBool b) 300 },
      b)

/-- get_user_limit: read-through cache (TTL 600).  The database value is
guarded by Python truthiness (result if result else DEFAULT_AD_LIMIT), so
both a missing row and a stored limit of 0 yield the default 4. -/
def get_user_limit (w : World) (uid : Nat) : World × Nat :=
  match cacheGet w.now w.cache (CKey.userLimit uid) with
  | some (CVal.vInt n) => (w, n)
  | _ =>
    let res := (w.db.limits.find? (fun p => p.1 == uid)).map (fun p => p.2)
    let lim := match res with
      | some v => if v ≠ 0 then v else 4
      | none => 4
    ({ w with cache := cacheSet w.now w.cache (CKey.userLimit uid) (CVal.vInt lim) 600 },
      lim)

/-- set_user_limit: upsert the user_limits row, then invalidate
user_limit:{uid}. -/
def set_user_limit (w : World) (uid : Nat) (v : Nat) : World :=
  { w with
      db := { w.db with limits := (uid, v) :: w.db.limits.filter (fun p => !(p.1 == uid)) },
      cache := cacheDel w.cache (CKey.userLimit uid) }

/-- The whitespace set of Python str.strip() and str.isspace(), which the
source uses to decide emptiness: the exact codepoints CPython treats as
whitespace. -/
def pySpace (c : Char) : Bool :=
  let n := c.toNat
  (0x9 ≤ n && n ≤ 0xd) || (0x1c ≤ n && n ≤ 0x20) || n == 0x85 || n == 0xa0 ||
  n == 0x1680 || (0x2000 ≤ n && n ≤ 0x200a) || n == 0x2028 || n == 0x2029 ||
  n == 0x202f || n == 0x205f || n == 0x3000

/-- The maximal contiguous ranges of non-ASCII codepoints matched by the
word class of Python re (a str pattern defaults to Unicode semantics),
obtained by exhaustive enumeration against CPython; the ASCII part of the
class is exactly the letters, digits and underscore and is handled
separately in isWordChar. -/
def wordRanges : List (Nat × Nat) :=
[
   (0xaa, 0xaa), (0xb2, 0xb3), (0xb5, 0xb5), (0xb9, 0xba),
   (0xbc, 0xbe), (0xc0, 0xd6), (0xd8, 0xf6), (0xf8, 0x2c1),
   (0x2c6, 0x2d1), (0x2e0, 0x2e4), (0x2ec, 0x2ec), (0x2ee, 0x2ee),
   (0x370, 0x374), (0x376, 0x377), (0x37a, 0x37d), (0x37f, 0x37f),
   (0x386, 0x386), (0x388, 0x38a), (0x38c, 0x38c), (0x38e, 0x3a1),
   (0x3a3, 0x3f5), (0x3f7, 0x481), (0x48a, 0x52f), (0x531, 0x556),
   (0x559, 0x559), (0x560, 0x588), (0x5d0, 0x5ea), (0x5ef, 0x5f2),
   (0x620, 0x64a), (0x660, 0x669), (0x66e, 0x66f), (0x671, 0x6d3),
   (0x6d5, 0x6d5), (0x6e5, 0x6e6), (0x6ee, 0x6fc), (0x6ff, 0x6ff),
   (0x710, 0x710), (0x712, 0x72f), (0x74d, 0x7a5), (0x7b1, 0x7b1),
   (0x7c0, 0x7ea), (0x7f4, 0x7f5), (0x7fa, 0x7fa), (0x800, 0x815),
   (0x81a, 0x81a), (0x824, 0x824), (0x828, 0x828), (0x840, 0x858),
   (0x860, 0x86a), (0x870, 0x887), (0x889, 0x88e), (0x8a0, 0x8c9),
   (0x904, 0x939), (0x93d, 0x93d), (0x950, 0x950), (0x958, 0x961),
   (0x966, 0x96f), (0x971, 0x980), (0x985, 0x98c), (0x98f, 0x990),
   (0x993, 0x9a8), (0x9aa, 0x9b0), (0x9b2, 0x9b2), (0x9b6, 0x9b9),
   (0x9bd, 0x9bd), (0x9ce, 0x9ce), (0x9dc, 0x9dd), (0x9df, 0x9e1),
   (0x9e6, 0x9f1), (0x9f4, 0x9f9), (0x9fc, 0x9fc), (0xa05, 0xa0a),
   (0xa0f, 0xa10), (0xa13, 0xa28), (0xa2a, 0xa30), (0xa32, 0xa33),
   (0xa35, 0xa36), (0xa38, 0xa39), (0xa59, 0xa5c), (0xa5e, 0xa5e),
   (0xa66, 0xa6f), (0xa72, 0xa74), (0xa85, 0xa8d), (0xa8f, 0xa91),
   (0xa93, 0xaa8), (0xaaa, 0xab0), (0xab2, 0xab3), (0xab5, 0xab9),
   (0xabd, 0xabd), (0xad0, 0xad0), (0xae0, 0xae1), (0xae6, 0xaef),
   (0xaf9, 0xaf9), (0xb05, 0xb0c), (0xb0f, 0xb10), (0xb13, 0xb28),
   (0xb2a, 0xb30), (0xb32, 0xb33), (0xb35, 0xb39), (0xb3d, 0xb3d),
   (0xb5c, 0xb5d), (0xb5f, 0xb61), (0xb66, 0xb6f), (0xb71, 0xb77),
   (0xb83, 0xb83), (0xb85, 0xb8a), (0xb8e, 0xb90), (0xb92, 0xb95),
   (0xb99, 0xb9a), (0xb9c, 0xb9c), (0xb9e, 0xb9f), (0xba3, 0xba4),
   (0xba8, 0xbaa), (0xbae, 0xbb9), (0xbd0, 0xbd0), (0xbe6, 0xbf2),
   (0xc05, 0xc0c), (0xc0e, 0xc10), (0xc12, 0xc28), (0xc2a, 0xc39),
   (0xc3d, 0xc3d), (0xc58, 0xc5a), (0xc5d, 0xc5d), (0xc60, 0xc61),
   (0xc66, 0xc6f), (0xc78, 0xc7e), (0xc80, 0xc80), (0xc85, 0xc8c),
   (0xc8e, 0xc90), (0xc92, 0xca8), (0xcaa, 0xcb3), (0xcb5, 0xcb9),
   (0xcbd, 0xcbd), (0xcdd, 0xcde), (0xce0, 0xce1), (0xce6, 0xcef),
   (0xcf1, 0xcf2), (0xd04, 0xd0c), (0xd0e, 0xd10), (0xd12, 0xd3a),
   (0xd3d, 0xd3d), (0xd4e, 0xd4e), (0xd54, 0xd56), (0xd58, 0xd61),
   (0xd66, 0xd78), (0xd7a, 0xd7f), (0xd85, 0xd96), (0xd9a, 0xdb1),
   (0xdb3, 0xdbb), (0xdbd, 0xdbd), (0xdc0, 0xdc6), (0xde6, 0xdef),
   (0xe01, 0xe30), (0xe32, 0xe33), (0xe40, 0xe46), (0xe50, 0xe59),
   (0xe81, 0xe82), (0xe84, 0xe84), (0xe86, 0xe8a), (0xe8c, 0xea3),
   (0xea5, 0xea5), (0xea7, 0xeb0), (0xeb2, 0xeb3), (0xebd, 0xebd),
   (0xec0, 0xec4), (0xec6, 0xec6), (0xed0, 0xed9), (0xedc, 0xedf),
   (0xf00, 0xf00), (0xf20, 0xf33), (0xf40, 0xf47), (0xf49, 0xf6c),
   (0xf88, 0xf8c), (0x1000, 0x102a), (0x103f, 0x1049), (0x1050, 0x1055),
   (0x105a, 0x105d), (0x1061, 0x1061), (0x1065, 0x1066), (0x106e, 0x1070),
   (0x1075, 0x1081), (0x108e, 0x108e), (0x1090, 0x1099), (0x10a0, 0x10c5),
   (0x10c7, 0x10c7), (0x10cd, 0x10cd), (0x10d0, 0x10fa), (0x10fc, 0x1248),
   (0x124a, 0x124d), (0x1250, 0x1256), (0x1258, 0x1258), (0x125a, 0x125d),
   (0x1260, 0x1288), (0x128a, 0x128d), (0x1290, 0x12b0), (0x12b2, 0x12b5),
   (0x12b8, 0x12be), (0x12c0, 0x12c0), (0x12c2, 0x12c5), (0x12c8, 0x12d6),
   (0x12d8, 0x1310), (0x1312, 0x1315), (0x1318, 0x135a), (0x1369, 0x137c),
   (0x1380, 0x138f), (0x13a0, 0x13f5), (0x13f8, 0x13fd), (0x1401, 0x166c),
   (0x166f, 0x167f), (0x1681, 0x169a), (0x16a0, 0x16ea), (0x16ee, 0x16f8),
   (0x1700, 0x1711), (0x171f, 0x1731), (0x1740, 0x1751), (0x1760, 0x176c),
   (0x176e, 0x1770), (0x1780, 0x17b3), (0x17d7, 0x17d7), (0x17dc, 0x17dc),
   (0x17e0, 0x17e9), (0x17f0, 0x17f9), (0x1810, 0x1819), (0x1820, 0x1878),
   (0x1880, 0x1884), (0x1887, 0x18a8), (0x18aa, 0x18aa), (0x18b0, 0x18f5),
   (0x1900, 0x191e), (0x1946, 0x196d), (0x1970, 0x1974), (0x1980, 0x19ab),
   (0x19b0, 0x19c9), (0x19d0, 0x19da), (0x1a00, 0x1a16), (0x1a20, 0x1a54),
   (0x1a80, 0x1a89), (0x1a90, 0x1a99), (0x1aa7, 0x1aa7), (0x1b05, 0x1b33),
   (0x1b45, 0x1b4c), (0x1b50, 0x1b59), (0x1b83, 0x1ba0), (0x1bae, 0x1be5),
   (0x1c00, 0x1c23), (0x1c40, 0x1c49), (0x1c4d, 0x1c7d), (0x1c80, 0x1c88),
   (0x1c90, 0x1cba), (0x1cbd, 0x1cbf), (0x1ce9, 0x1cec), (0x1cee, 0x1cf3),
   (0x1cf5, 0x1cf6), (0x1cfa, 0x1cfa), (0x1d00, 0x1dbf), (0x1e00, 0x1f15),
   (0x1f18, 0x1f1d), (0x1f20, 0x1f45), (0x1f48, 0x1f4d), (0x1f50, 0x1f57),
   (0x1f59, 0x1f59), (0x1f5b, 0x1f5b), (0x1f5d, 0x1f5d), (0x1f5f, 0x1f7d),
   (0x1f80, 0x1fb4), (0x1fb6, 0x1fbc), (0x1fbe, 0x1fbe), (0x1fc2, 0x1fc4),
   (0x1fc6, 0x1fcc), (0x1fd0, 0x1fd3), (0x1fd6, 0x1fdb), (0x1fe0, 0x1fec),
   (0x1ff2, 0x1ff4), (0x1ff6, 0x1ffc), (0x2070, 0x2071), (0x2074, 0x2079),
   (0x207f, 0x2089), (0x2090, 0x209c), (0x2102, 0x2102), (0x2107, 0x2107),
   (0x210a, 0x2113), (0x2115, 0x2115), (0x2119, 0x211d), (0x2124, 0x2124),
   (0x2126, 0x2126), (0x2128, 0x2128), (0x212a, 0x212d), (0x212f, 0x2139),
   (0x213c, 0x213f), (0x2145, 0x2149), (0x214e, 0x214e), (0x2150, 0x2189),
   (0x2460, 0x249b), (0x24ea, 0x24ff), (0x2776, 0x2793), (0x2c00, 0x2ce4),
   (0x2ceb, 0x2cee), (0x2cf2, 0x2cf3), (0x2cfd, 0x2cfd), (0x2d00, 0x2d25),
   (0x2d27, 0x2d27), (0x2d2d, 0x2d2d), (0x2d30, 0x2d67), (0x2d6f, 0x2d6f),
   (0x2d80, 0x2d96), (0x2da0, 0x2da6), (0x2da8, 0x2dae), (0x2db0, 0x2db6),
   (0x2db8, 0x2dbe), (0x2dc0, 0x2dc6), (0x2dc8, 0x2dce), (0x2dd0, 0x2dd6),
   (0x2dd8, 0x2dde), (0x2e2f, 0x2e2f), (0x3005, 0x3007), (0x3021, 0x3029),
   (0x3031, 0x3035), (0x3038, 0x303c), (0x3041, 0x3096), (0x309d, 0x309f),
   (0x30a1, 0x30fa), (0x30fc, 0x30ff), (0x3105, 0x312f), (0x3131, 0x318e),
   (0x3192, 0x3195), (0x31a0, 0x31bf), (0x31f0, 0x31ff), (0x3220, 0x3229),
   (0x3248, 0x324f), (0x3251, 0x325f), (0x3280, 0x3289), (0x32b1, 0x32bf),
   (0x3400, 0x4dbf), (0x4e00, 0xa48c), (0xa4d0, 0xa4fd), (0xa500, 0xa60c),
   (0xa610, 0xa62b), (0xa640, 0xa66e), (0xa67f, 0xa69d), (0xa6a0, 0xa6ef),
   (0xa717, 0xa71f), (0xa722, 0xa788), (0xa78b, 0xa7ca), (0xa7d0, 0xa7d1),
   (0xa7d3, 0xa7d3), (0xa7d5, 0xa7d9), (0xa7f2, 0xa801), (0xa803, 0xa805),
   (0xa807, 0xa80a), (0xa80c, 0xa822), (0xa830, 0xa835), (0xa840, 0xa873),
   (0xa882, 0xa8b3), (0xa8d0, 0xa8d9), (0xa8f2, 0xa8f7), (0xa8fb, 0xa8fb),
   (0xa8fd, 0xa8fe), (0xa900, 0xa925), (0xa930, 0xa946), (0xa960, 0xa97c),
   (0xa984, 0xa9b2), (0xa9cf, 0xa9d9), (0xa9e0, 0xa9e4), (0xa9e6, 0xa9fe),
   (0xaa00, 0xaa28), (0xaa40, 0xaa42), (0xaa44, 0xaa4b), (0xaa50, 0xaa59),
   (0xaa60, 0xaa76), (0xaa7a, 0xaa7a), (0xaa7e, 0xaaaf), (0xaab1, 0xaab1),
   (0xaab5, 0xaab6), (0xaab9, 0xaabd), (0xaac0, 0xaac0), (0xaac2, 0xaac2),
   (0xaadb, 0xaadd), (0xaae0, 0xaaea), (0xaaf2, 0xaaf4), (0xab01, 0xab06),
   (0xab09, 0xab0e), (0xab11, 0xab16), (0xab20, 0xab26), (0xab28, 0xab2e),
   (0xab30, 0xab5a), (0xab5c, 0xab69), (0xab70, 0xabe2), (0xabf0, 0xabf9),
   (0xac00, 0xd7a3), (0xd7b0, 0xd7c6), (0xd7cb, 0xd7fb), (0xf900, 0xfa6d),
   (0xfa70, 0xfad9), (0xfb00, 0xfb06), (0xfb13, 0xfb17), (0xfb1d, 0xfb1d),
   (0xfb1f, 0xfb28), (0xfb2a, 0xfb36), (0xfb38, 0xfb3c), (0xfb3e, 0xfb3e),
   (0xfb40, 0xfb41), (0xfb43, 0xfb44), (0xfb46, 0xfbb1), (0xfbd3, 0xfd3d),
   (0xfd50, 0xfd8f), (0xfd92, 0xfdc7), (0xfdf0, 0xfdfb), (0xfe70, 0xfe74),
   (0xfe76, 0xfefc), (0xff10, 0xff19), (0xff21, 0xff3a), (0xff41, 0xff5a),
   (0xff66, 0xffbe), (0xffc2, 0xffc7), (0xffca, 0xffcf), (0xffd2, 0xffd7),
   (0xffda, 0xffdc), (0x10000, 0x1000b), (0x1000d, 0x10026), (0x10028, 0x1003a),
   (0x1003c, 0x1003d), (0x1003f, 0x1004d), (0x10050, 0x1005d), (0x10080, 0x100fa),
   (0x10107, 0x10133), (0x10140, 0x10178), (0x1018a, 0x1018b), (0x10280, 0x1029c),
   (0x102a0, 0x102d0), (0x102e1, 0x102fb), (0x10300, 0x10323), (0x1032d, 0x1034a),
   (0x10350, 0x10375), (0x10380, 0x1039d), (0x103a0, 0x103c3), (0x103c8, 0x103cf),
   (0x103d1, 0x103d5), (0x10400, 0x1049d), (0x104a0, 0x104a9), (0x104b0, 0x104d3),
   (0x104d8, 0x104fb), (0x10500, 0x10527), (0x10530, 0x10563), (0x10570, 0x1057a),
   (0x1057c, 0x1058a), (0x1058c, 0x10592), (0x10594, 0x10595), (0x10597, 0x105a1),
   (0x105a3, 0x105b1), (0x105b3, 0x105b9), (0x105bb, 0x105bc), (0x10600, 0x10736),
   (0x10740, 0x10755), (0x10760, 0x10767), (0x10780, 0x10785), (0x10787, 0x107b0),
   (0x107b2, 0x107ba), (0x10800, 0x10805), (0x10808, 0x10808), (0x1080a, 0x10835),
   (0x10837, 0x10838), (0x1083c, 0x1083c), (0x1083f, 0x10855), (0x10858, 0x10876),
   (0x10879, 0x1089e), (0x108a7, 0x108af), (0x108e0, 0x108f2), (0x108f4, 0x108f5),
   (0x108fb, 0x1091b), (0x10920, 0x10939), (0x10980, 0x109b7), (0x109bc, 0x109cf),
   (0x109d2, 0x10a00), (0x10a10, 0x10a13), (0x10a15, 0x10a17), (0x10a19, 0x10a35),
   (0x10a40, 0x10a48), (0x10a60, 0x10a7e), (0x10a80, 0x10a9f), (0x10ac0, 0x10ac7),
   (0x10ac9, 0x10ae4), (0x10aeb, 0x10aef), (0x10b00, 0x10b35), (0x10b40, 0x10b55),
   (0x10b58, 0x10b72), (0x10b78, 0x10b91), (0x10ba9, 0x10baf), (0x10c00, 0x10c48),
   (0x10c80, 0x10cb2), (0x10cc0, 0x10cf2), (0x10cfa, 0x10d23), (0x10d30, 0x10d39),
   (0x10e60, 0x10e7e), (0x10e80, 0x10ea9), (0x10eb0, 0x10eb1), (0x10f00, 0x10f27),
   (0x10f30, 0x10f45), (0x10f51, 0x10f54), (0x10f70, 0x10f81), (0x10fb0, 0x10fcb),
   (0x10fe0, 0x10ff6), (0x11003, 0x11037), (0x11052, 0x1106f), (0x11071, 0x11072),
   (0x11075, 0x11075), (0x11083, 0x110af), (0x110d0, 0x110e8), (0x110f0, 0x110f9),
   (0x11103, 0x11126), (0x11136, 0x1113f), (0x11144, 0x11144), (0x11147, 0x11147),
   (0x11150, 0x11172), (0x11176, 0x11176), (0x11183, 0x111b2), (0x111c1, 0x111c4),
   (0x111d0, 0x111da), (0x111dc, 0x111dc), (0x111e1, 0x111f4), (0x11200, 0x11211),
   (0x11213, 0x1122b), (0x11280, 0x11286), (0x11288, 0x11288), (0x1128a, 0x1128d),
   (0x1128f, 0x1129d), (0x1129f, 0x112a8), (0x112b0, 0x112de), (0x112f0, 0x112f9),
   (0x11305, 0x1130c), (0x1130f, 0x11310), (0x11313, 0x11328), (0x1132a, 0x11330),
   (0x11332, 0x11333), (0x11335, 0x11339), (0x1133d, 0x1133d), (0x11350, 0x11350),
   (0x1135d, 0x11361), (0x11400, 0x11434), (0x11447, 0x1144a), (0x11450, 0x11459),
   (0x1145f, 0x11461), (0x11480, 0x114af), (0x114c4, 0x114c5), (0x114c7, 0x114c7),
   (0x114d0, 0x114d9), (0x11580, 0x115ae), (0x115d8, 0x115db), (0x11600, 0x1162f),
   (0x11644, 0x11644), (0x11650, 0x11659), (0x11680, 0x116aa), (0x116b8, 0x116b8),
   (0x116c0, 0x116c9), (0x11700, 0x1171a), (0x11730, 0x1173b), (0x11740, 0x11746),
   (0x11800, 0x1182b), (0x118a0, 0x118f2), (0x118ff, 0x11906), (0x11909, 0x11909),
   (0x1190c, 0x11913), (0x11915, 0x11916), (0x11918, 0x1192f), (0x1193f, 0x1193f),
   (0x11941, 0x11941), (0x11950, 0x11959), (0x119a0, 0x119a7), (0x119aa, 0x119d0),
   (0x119e1, 0x119e1), (0x119e3, 0x119e3), (0x11a00, 0x11a00), (0x11a0b, 0x11a32),
   (0x11a3a, 0x11a3a), (0x11a50, 0x11a50), (0x11a5c, 0x11a89), (0x11a9d, 0x11a9d),
   (0x11ab0, 0x11af8), (0x11c00, 0x11c08), (0x11c0a, 0x11c2e), (0x11c40, 0x11c40),
   (0x11c50, 0x11c6c), (0x11c72, 0x11c8f), (0x11d00, 0x11d06), (0x11d08, 0x11d09),
   (0x11d0b, 0x11d30), (0x11d46, 0x11d46), (0x11d50, 0x11d59), (0x11d60, 0x11d65),
   (0x11d67, 0x11d68), (0x11d6a, 0x11d89), (0x11d98, 0x11d98), (0x11da0, 0x11da9),
   (0x11ee0, 0x11ef2), (0x11fb0, 0x11fb0), (0x11fc0, 0x11fd4), (0x12000, 0x12399),
   (0x12400, 0x1246e), (0x12480, 0x12543), (0x12f90, 0x12ff0), (0x13000, 0x1342e),
   (0x14400, 0x14646), (0x16800, 0x16a38), (0x16a40, 0x16a5e), (0x16a60, 0x16a69),
   (0x16a70, 0x16abe), (0x16ac0, 0x16ac9), (0x16ad0, 0x16aed), (0x16b00, 0x16b2f),
   (0x16b40, 0x16b43), (0x16b50, 0x16b59), (0x16b5b, 0x16b61), (0x16b63, 0x16b77),
   (0x16b7d, 0x16b8f), (0x16e40, 0x16e96), (0x16f00, 0x16f4a), (0x16f50, 0x16f50),
   (0x16f93, 0x16f9f), (0x16fe0, 0x16fe1), (0x16fe3, 0x16fe3), (0x17000, 0x187f7),
   (0x18800, 0x18cd5), (0x18d00, 0x18d08), (0x1aff0, 0x1aff3), (0x1aff5, 0x1affb),
   (0x1affd, 0x1affe), (0x1b000, 0x1b122), (0x1b150, 0x1b152), (0x1b164, 0x1b167),
   (0x1b170, 0x1b2fb), (0x1bc00, 0x1bc6a), (0x1bc70, 0x1bc7c), (0x1bc80, 0x1bc88),
   (0x1bc90, 0x1bc99), (0x1d2e0, 0x1d2f3), (0x1d360, 0x1d378), (0x1d400, 0x1d454),
   (0x1d456, 0x1d49c), (0x1d49e, 0x1d49f), (0x1d4a2, 0x1d4a2), (0x1d4a5, 0x1d4a6),
   (0x1d4a9, 0x1d4ac), (0x1d4ae, 0x1d4b9), (0x1d4bb, 0x1d4bb), (0x1d4bd, 0x1d4c3),
   (0x1d4c5, 0x1d505), (0x1d507, 0x1d50a), (0x1d50d, 0x1d514), (0x1d516, 0x1d51c),
   (0x1d51e, 0x1d539), (0x1d53b, 0x1d53e), (0x1d540, 0x1d544), (0x1d546, 0x1d546),
   (0x1d54a, 0x1d550), (0x1d552, 0x1d6a5), (0x1d6a8, 0x1d6c0), (0x1d6c2, 0x1d6da),
   (0x1d6dc, 0x1d6fa), (0x1d6fc, 0x1d714), (0x1d716, 0x1d734), (0x1d736, 0x1d74e),
   (0x1d750, 0x1d76e), (0x1d770, 0x1d788), (0x1d78a, 0x1d7a8), (0x1d7aa, 0x1d7c2),
   (0x1d7c4, 0x1d7cb), (0x1d7ce, 0x1d7ff), (0x1df00, 0x1df1e), (0x1e100, 0x1e12c),
   (0x1e137, 0x1e13d), (0x1e140, 0x1e149), (0x1e14e, 0x1e14e), (0x1e290, 0x1e2ad),
   (0x1e2c0, 0x1e2eb), (0x1e2f0, 0x1e2f9), (0x1e7e0, 0x1e7e6), (0x1e7e8, 0x1e7eb),
   (0x1e7ed, 0x1e7ee), (0x1e7f0, 0x1e7fe), (0x1e800, 0x1e8c4), (0x1e8c7, 0x1e8cf),
   (0x1e900, 0x1e943), (0x1e94b, 0x1e94b), (0x1e950, 0x1e959), (0x1ec71, 0x1ecab),
   (0x1ecad, 0x1ecaf), (0x1ecb1, 0x1ecb4), (0x1ed01, 0x1ed2d), (0x1ed2f, 0x1ed3d),
   (0x1ee00, 0x1ee03), (0x1ee05, 0x1ee1f), (0x1ee21, 0x1ee22), (0x1ee24, 0x1ee24),
   (0x1ee27, 0x1ee27), (0x1ee29, 0x1ee32), (0x1ee34, 0x1ee37), (0x1ee39, 0x1ee39),
   (0x1ee3b, 0x1ee3b), (0x1ee42, 0x1ee42), (0x1ee47, 0x1ee47), (0x1ee49, 0x1ee49),
   (0x1ee4b, 0x1ee4b), (0x1ee4d, 0x1ee4f), (0x1ee51, 0x1ee52), (0x1ee54, 0x1ee54),
   (0x1ee57, 0x1ee57), (0x1ee59, 0x1ee59), (0x1ee5b, 0x1ee5b), (0x1ee5d, 0x1ee5d),
   (0x1ee5f, 0x1ee5f), (0x1ee61, 0x1ee62), (0x1ee64, 0x1ee64), (0x1ee67, 0x1ee6a),
   (0x1ee6c, 0x1ee72), (0x1ee74, 0x1ee77), (0x1ee79, 0x1ee7c), (0x1ee7e, 0x1ee7e),
   (0x1ee80, 0x1ee89), (0x1ee8b, 0x1ee9b), (0x1eea1, 0x1eea3), (0x1eea5, 0x1eea9),
   (0x1eeab, 0x1eebb), (0x1f100, 0x1f10c), (0x1fbf0, 0x1fbf9), (0x20000, 0x2a6df),
   (0x2a700, 0x2b738), (0x2b740, 0x2b81d), (0x2b820, 0x2cea1), (0x2ceb0, 0x2ebe0),
   (0x2f800, 0x2fa1d), (0x30000, 0x3134a)]

/-- A Python re word character (the class probed by the regex word
boundaries): ASCII letters, digits and underscore, plus the non-ASCII
codepoints of wordRanges. -/
def isWordChar (c : Char) : Bool :=
  if c.toNat < 128 then c.isAlphanum || c == '_'
  else wordRanges.any (fun p => p.1 ≤ c.toNat && c.toNat ≤ p.2)

/-- The label group of the domain regex
[a-zA-Z0-9]([a-zA-Z0-9-]{0,61}[a-zA-Z0-9])? : 1 to 63 characters, first
and last alphanumeric, interior alphanumeric or hyphen. -/
def labelOKb (l : List Char) : Bool :=
  decide (1 ≤ l.length) && decide (l.length ≤ 63) &&
  (l.head?.elim false Char.isAlphanum) &&
  (l.getLast?.elim false Char.isAlphanum) &&
  (l.drop 1).dropLast.all (fun d => d.isAlphanum || d == '-')

/-- The TLD group ([a-zA-Z]{2,}) followed by a word boundary: n counts
alpha characters already consumed; succeeds when at least 2 alphas end at
a non-word character or at the end of the string. -/
def tldBoundary (n : Nat) : List Char → Bool
  | [] => decide (2 ≤ n)
  | c :: rest =>
    (decide (2 ≤ n) && !isWordChar c) || (c.isAlpha && tldBoundary (n + 1) rest)

/-- Does a match of label "." tld \b start exactly here?  All label
lengths 1..63 are tried, mirroring the backtracking search. -/
def tryLabel (s : List Char) : Bool :=
  (List.range 63).any (fun i =>
    let n := i + 1
    decide ((s.take n).length = n) && labelOKb (s.take n) &&
    (match s.drop n with
      | c :: rest => c == '.' && tldBoundary 0 rest
      | [] => false))

/-- True when the preceding character (none at string start) permits the
opening word boundary of the regex. -/
def prevBoundary : Option Char → Bool
  | none => true
  | some c => !isWordChar c

/-- Scan of re.search for the domain pattern: at every position with an
opening word boundary, try to match label "." tld \b. -/
def domainScan (prev : Option Char) : List Char → Bool
  | [] => false
  | c :: rest =>
    (prevBoundary prev && tryLabel (c :: rest)) || domainScan (some c) rest

/-- re.search(domain_pattern, text) is not None. -/
def hasDomain (s : List Char) : Bool :=
  domainScan none s

/-- One pattern character of the URL-scheme regex matched against one
text character under re.IGNORECASE: besides the ASCII case pair, CPython
case-folds U+017F (long s) with the letter s; the other pattern
characters of https?:// have no further equivalents. -/
def ciMatchChar (p c : Char) : Bool :=
  (c == p) || (p == 'h' && c == 'H') || (p == 't' && c == 'T') ||
  (p == 'p' && c == 'P') || (p == 's' && (c == 'S' || c.toNat == 0x17f))

/-- The pattern matches a prefix of the text, character-wise
case-insensitively. -/
def matchPrefixCI : List Char → List Char → Bool
  | [], _ => true
  | _ :: _, [] => false
  | p :: ps, c :: cs => ciMatchChar p c && matchPrefixCI ps cs

/-- Case-insensitive substring search for a fixed pattern. -/
def hasSubCI (pat : List Char) : List Char → Bool
  | [] => pat.isEmpty
  | c :: rest => matchPrefixCI pat (c :: rest) || hasSubCI pat rest

/-- re.search(r"https?://", text, re.IGNORECASE) is not None: an
occurrence of either alternative anywhere in the text. -/
def hasHttp (s : List Char) : Bool :=
  hasSubCI "http://".toList s || hasSubCI "https://".toList s

/-- Result of ValidationService.validate_message_text. -/
structure ValidationResult where
  is_valid : Bool
  error_message : String
deriving DecidableEq, Repr

/-- ValidationService.validate_message_text on the character list: the
six checks in source order, first match wins. -/
def validateCore (cs : List Char) : ValidationResult :=
  if cs.all pySpace then
    ⟨false, "Сообщение не может быть пустым!"⟩
  else if 4000 < cs.length then
    ⟨false, "Сообщение слишком длинное (максимум 4000 символов)!"⟩
  else if cs.contains '@' then
    ⟨false, "username не принимаются, мы сами вставим ссылку на вас."⟩
  else if hasHttp cs then
    ⟨false, "Ссылки не принимаются, мы сами вставим ссылку на вас."⟩
  else if cs.contains '#' then
    ⟨false, "Хэштеги не принимаются, мы сами вставим ссылку на вас."⟩
  else if hasDomain cs then
    ⟨false, "Сайты не принимаются, мы сами вставим ссылку на вас."⟩
  else
    ⟨true, ""⟩

/-- ValidationService.validate_message_text on the submitted string. -/
def validate_message_text (text : String) : ValidationResult :=
  validateCore text.toList

/-- The claim's literal label shape: 1 to 63 alphanumeric/hyphen
characters, with no constraint on the endpoints. -/
def claimLabelOK (l : List Char) : Bool :=
  decide (1 ≤ l.length) && decide (l.length ≤ 63) &&
  l.all (fun d => d.isAlphanum || d == '-')

/-- The claim's pattern tail after the first "label.": either a TLD of at
least two alphabetic characters starts here, or another "label." follows.
Anything may follow the TLD (plain substring containment, no word
boundaries — exactly the claim's wording). -/
inductive ClaimTail : List Char → Prop where
  | tld (t rest : List Char) : 2 ≤ t.length → t.all Char.isAlpha = true →
      ClaimTail (t ++ rest)
  | step (l rest : List Char) : claimLabelOK l = true → ClaimTail rest →
      ClaimTail (l ++ '.' :: rest)

/-- The claim as written: the text contains a substring of the form
label(.label)*.tld with the claim's label and TLD shapes. -/
def ContainsClaimDomain (s : List Char) : Prop :=
  ∃ pre l rest, s = pre ++ l ++ '.' :: rest ∧ claimLabelOK l = true ∧ ClaimTail rest

/-- The regex TLD shape: at least two characters, all alphabetic. -/
def tldOKb (t : List Char) : Bool :=
  decide (2 ≤ t.length) && t.all Char.isAlpha

/-- A full bare-domain body label(.label)*.tld with the regex label and
TLD shapes. -/
inductive DomainBody : List Char → Prop where
  | base (l t : List Char) : labelOKb l = true → tldOKb t = true →
      DomainBody (l ++ '.' :: t)
  | cons (l b : List Char) : labelOKb l = true → DomainBody b →
      DomainBody (l ++ '.' :: b)

/-- The amended pattern: the text contains a bare-domain body delimited by
word boundaries (the characters adjacent to the occurrence, when they
exist, are not word characters). -/
def ContainsDomainBounded (s : List Char) : Prop :=
  ∃ pre b post, s = pre ++ b ++ post ∧ DomainBody b ∧
    (∀ c, pre.getLast? = some c → isWordChar c = false) ∧
    (∀ c, post.head? = some c → isWordChar c = false)

/-- Deployment configuration relevant to the handlers. -/
structure Config where
  TARGET_CHAT_ID : Int
  MODERATION_CHAT_ID : Int
deriving DecidableEq, Repr

/-- FSM state tags of AdStates. -/
inductive StateTag where
  | choosing_language
  | main_menu
  | choosing_topic
  | writing_ad
  | my_ads
  | editing_ad
deriving DecidableEq, Repr

/-- Per-user FSM session: state tag plus the transient data keys used by
the handlers. -/
structure Session where
  tag : Option StateTag
  selected_topic : Option String
  editing_message_id : Option Nat
  message_url : Option String
  topic_name : Option String
deriving DecidableEq, Repr

/-- state.clear(): state and data both reset. -/
def clearedSession : Session :=
  ⟨none, none, none, none, none⟩

/-- Outward-visible actions of a handler, in emission order. -/
inductive Effect where
  | reply (text : String)
  | alert (text : String)
  | publish (chatId : Int) (threadId : Nat) (text : String)
  | deleteExternal (chatId : Int) (mid : Nat)
  | notify (uid : Nat) (text : String)
  | sendModeration (text : String)
deriving DecidableEq, Repr

/-- The TOPICS table: callback key, display name, thread id. -/
def TOPICS : List (String × String × Nat) :=
  [("topic_1", "💼 Работа", 27),
   ("topic_2", "🏠 Недвижимость", 28),
   ("topic_3", "🚗 Авто", 29),
   ("topic_4", "🛍️ Товары", 30),
   ("topic_5", "💡 Услуги", 31),
   ("topic_6", "📚 Обучение", 32)]

/-- The standing rejection notice of the ban_check decorator. -/
def bannedNotice : String :=
  "🚫 Вы заблокированы в этом боте."

/-- The transient notice of the rate_limit decorator. -/
def tooManyNotice : String :=
  "⏱ Слишком много запросов. Попробуйте позже."

/-- The limit-exceeded message of ad_text_handler, showing the current
count and the limit. -/
def limitMessage (cnt lim : Nat) : String :=
  s!"❌ Превышен лимит объявлений!\n\nУ вас: {cnt}/{lim} объявлений\n\nУдалите старые объявления через Мои объявления"

/-- Replace a user's rate-limiter bucket. -/
def setBucket (rl : List (Nat × List Nat)) (uid : Nat) (ts : List Nat) :
    List (Nat × List Nat) :=
  (uid, ts) :: rl.filter (fun p => !(p.1 == uid))

/-- The requests of the sliding window that are still fresh
(now - req_time < 60). -/
def freshRequests (w : World) (uid : Nat) : List Nat :=
  (((w.rateLim.find? (fun p => p.1 == uid)).map (fun p => p.2)).getD []).filter
    (fun t => w.now - t < 60)

/-- The rate_limit decorator (defaults 10 requests / 60 s): prune the
window in place; drop the event with a transient notice when full,
otherwise record the event and run the handler. -/
def run_rate_limit (w : World) (uid : Nat) (s : Session)
    (k : World → World × Session × List Effect) : World × Session × List Effect :=
  if uid = 0 then k w
  else
    let fresh := freshRequests w uid
    if 10 ≤ fresh.length then
      ({ w with rateLim := setBucket w.rateLim uid fresh }, s, [Effect.alert tooManyNotice])
    else
      k { w with rateLim := setBucket w.rateLim uid (fresh ++ [w.now]) }

/-- The ban_check decorator: a banned user gets the standing rejection
notice and the wrapped handler never runs. -/
def run_ban_check (w : World) (uid : Nat) (s : Session)
    (k : World → World × Session × List Effect) : World × Session × List Effect :=
  if uid = 0 then k w
  else
    let p := is_user_banned w uid
    if p.2 then (p.1, s, [Effect.alert bannedNotice])
    else k p.1

/-- create_ad_handler (decorated with rate_limit and ban_check): render
the topic list and move to choosing_topic. -/
def create_ad_handler (w : World) (s : Session) (uid : Nat) :
    World × Session × List Effect :=
  run_rate_limit w uid s (fun w1 =>
    run_ban_check w1 uid s (fun w2 =>
      (w2, { s with tag := some StateTag.choosing_topic },
        [Effect.reply "📝 В какую тему хотите написать?"])))

/-- The published post: first line wrapped as a blockquote, the remaining
lines verbatim, then the appended owner-attribution link. -/
def formatAd (text : String) (uid : Nat) (username : Option String) : String :=
  let lines := text.splitOn "\n"
  let first := lines.headD ""
  let body := "<blockquote>" ++ first ++ "</blockquote>" ++
    (if 1 < lines.length then "\n" ++ String.intercalate "\n" (lines.drop 1) else "")
  let contact := match username with
    | some u => "https://t.me/" ++ u
    | none => "tg://user?id=" ++ toString uid
  body ++ "\n\n<a href=\"" ++ contact ++ "\">—</a>"

/-- The public URL of a published message. -/
def mkUrl (cfg : Config) (mid : Nat) : String :=
  "https://t.me/c/" ++ (toString cfg.TARGET_CHAT_ID).drop 4 ++ "/" ++ toString mid

/-- The moderation notification for a new ad. -/
def moderationText (uid : Nat) (username : Option String) (text url tname : String) : String :=
  let uname := match username with
    | some u => "@" ++ u
    | none => "Нет username"
  s!"📋 Новое объявление:\n\n👤 ID: {uid}\n🔗 Username: {uname}\n📂 Тема: {tname}\n\n📝 Текст:\n{text}\n\n🔗 Ссылка: {url}"

/-- The body of ad_text_handler after its decorators: limit guard, topic
guard, validation, publish, persist, confirmation.  pubOk and newMid model
the chat platform: whether the outward send succeeds and which message id
it assigns. -/
def ad_text_body (cfg : Config) (s : Session) (uid : Nat) (username : Option String)
    (chatId : Int) (text : String) (pubOk : Bool) (newMid : Nat) (w : World) :
    World × Session × List Effect :=
  if chatId = cfg.TARGET_CHAT_ID then (w, s, [])
  else
    let p1 := get_user_ad_count w uid
    let p2 := get_user_limit p1.1 uid
    if p2.2 ≤ p1.2 then
      (p2.1, clearedSession, [Effect.reply (limitMessage p1.2 p2.2)])
    else
      match s.selected_topic with
      | none => (p2.1, clearedSession,
          [Effect.reply "❌ Ошибка: тема не выбрана. Начните заново с /start"])
      | some tk =>
        match TOPICS.find? (fun t => t.1 == tk) with
        | none => (p2.1, clearedSession,
            [Effect.reply "❌ Ошибка: тема не выбрана. Начните заново с /start"])
        | some topicData =>
          let v := validate_message_text text
          if v.is_valid = false then (p2.1, s, [Effect.reply v.error_message])
          else
            let formatted := formatAd text uid username
            if pubOk then
              let url := mkUrl cfg newMid
              let p3 := add_user_ad p2.1 ⟨uid, newMid, url, topicData.2.1⟩
              let modEffs :=
                if cfg.MODERATION_CHAT_ID = 0 then []
                else [Effect.sendModeration
                  (moderationText uid username text url topicData.2.1)]
              let p4 := get_user_ad_count p3.1 uid
              (p4.1, clearedSession,
                Effect.publish cfg.TARGET_CHAT_ID topicData.2.2 formatted ::
                  modEffs ++ [Effect.reply s!"✅ Объявление опубликовано!\n📊 Объявлений: {p4.2}/{p2.2}"])
            else
              (p2.1, clearedSession,
                [Effect.reply "❌ Ошибка при публикации. Попробуйте позже."])

/-- ad_text_handler: the writing_ad text handler with its rate_limit and
ban_check decorators. -/
def ad_text_handler (cfg : Config) (w : World) (s : Session) (uid : Nat)
    (username : Option String) (chatId : Int) (text : String)
    (pubOk : Bool) (newMid : Nat) : World × Session × List Effect :=
  run_rate_limit w uid s (fun w1 =>
    run_ban_check w1 uid s (ad_text_body cfg s uid username chatId text pubOk newMid))

/-- confirm_delete_handler: no rate_limit and no ban_check decorator in
the source; ownership is checked, the outward message delete is attempted,
the row is deleted, and the remaining list is re-rendered. -/
def confirm_delete_handler (cfg : Config) (w : World) (s : Session) (uid : Nat)
    (mid : Nat) : World × Session × List Effect :=
  let p := get_ad_by_message_id w mid
  match p.2 with
  | none => (p.1, s, [Effect.alert "❌ Объявление не найдено"])
  | some ad =>
    if ad.1 ≠ uid then (p.1, s, [Effect.alert "❌ Это не ваше объявление"])
    else
      let p2 := delete_user_ad p.1 mid
      let p3 := get_user_ads_with_counts p2.1 uid
      let p4 := get_user_limit p3.1 uid
      if p3.2.isEmpty then
        (p4.1, s,
          [Effect.deleteExternal cfg.TARGET_CHAT_ID mid,
           Effect.reply "✅ Объявление удалено!\n\nУ вас больше нет объявлений.",
           Effect.alert "✅ Объявление успешно удалено!"])
      else
        let p5 := get_user_ads_with_counts p4.1 uid
        (p5.1, s,
          [Effect.deleteExternal cfg.TARGET_CHAT_ID mid,
           Effect.reply s!"✅ Объявление удалено!\n\n📋 Ваши объявления ({p3.2.length}/{p4.2}):",
           Effect.alert "✅ Объявление успешно удалено!"])

/-- Python str.split(): split on whitespace runs, dropping empties. -/
def pySplit (s : String) : List String :=
  (s.split Char.isWhitespace).filter (fun t => t ≠ "")

/-- Moderation-gate guards shared by every moderation command: silently
ignore messages from the target chat, and silently ignore anything not
originating from a configured moderation chat. -/
def modGate (cfg : Config) (chatId : Int) : Bool :=
  !(chatId == cfg.TARGET_CHAT_ID) &&
  !(cfg.MODERATION_CHAT_ID == 0) && (chatId == cfg.MODERATION_CHAT_ID)

/-- Command /ban <user_id>. -/
def ban_command (cfg : Config) (w : World) (chatId : Int) (text : String) :
    World × List Effect :=
  if modGate cfg chatId = false then (w, [])
  else
    let args := pySplit text
    if args.length ≠ 2 then (w, [Effect.reply "❌ Использование: /ban user_id"])
    else
      match (args.getD 1 "").toNat? with
      | none => (w, [Effect.reply "❌ Неверный ID пользователя"])
      | some uid =>
        let p := ban_user w uid
        (p.1, [Effect.notify uid "🚫 Вы были заблокированы администрацией.",
               Effect.reply s!"✅ Пользователь {uid} забанен"])

/-- The cascade of /banall: best-effort outward delete and repository
delete for each listed ad, counting the processed ads. -/
def banallLoop (cfg : Config) (w : World) :
    List (Nat × String × String) → World × Nat × List Effect
  | [] => (w, 0, [])
  | (mid, _, _) :: rest =>
    let p := delete_user_ad w mid
    let q := banallLoop cfg p.1 rest
    (q.1, q.2.1 + 1, Effect.deleteExternal cfg.TARGET_CHAT_ID mid :: q.2.2)

/-- Command /banall <user_id>: delete every ad of the user, then ban. -/
def banall_command (cfg : Config) (w : World) (chatId : Int) (text : String) :
    World × List Effect :=
  if modGate cfg chatId = false then (w, [])
  else
    let args := pySplit text
    if args.length ≠ 2 then (w, [Effect.reply "❌ Использование: /banall user_id"])
    else
      match (args.getD 1 "").toNat? with
      | none => (w, [Effect.reply "❌ Неверный ID пользователя"])
      | some uid =>
        let pa := get_user_ads w uid
        let lp := banallLoop cfg pa.1 pa.2
        let pb := ban_user lp.1 uid
        (pb.1, lp.2.2 ++
          [Effect.notify uid s!"🚫 Вы были заблокированы администрацией. Все ваши объявления ({lp.2.1} шт.) удалены.",
           Effect.reply s!"✅ Пользователь {uid} забанен\n🗑 Удалено объявлений: {lp.2.1}"])

/-- Command /banoff <user_id>: refuse when not banned, else unban and
notify. -/
def banoff_command (cfg : Config) (w : World) (chatId : Int) (text : String) :
    World × List Effect :=
  if modGate cfg chatId = false then (w, [])
  else
    let args := pySplit text
    if args.length ≠ 2 then (w, [Effect.reply "❌ Использование: /banoff user_id"])
    else
      match (args.getD 1 "").toNat? with
      | none => (w, [Effect.reply "❌ Неверный ID пользователя"])
      | some uid =>
        let p := is_user_banned w uid
        if p.2 = false then
          (p.1, [Effect.reply s!"❌ Пользователь {uid} не был забанен"])
        else
          let q := unban_user p.1 uid
          (q.1, [Effect.notify uid "✅ Ваша блокировка снята. Теперь вы можете снова размещать объявления.",
                 Effect.reply s!"✅ Пользователь {uid} разбанен"])

/-- Command /setlimit <user_id> <limit>: range-check [0, 50], upsert the
limit, notify the user of the direction of the change. -/
def setlimit_command (cfg : Config) (w : World) (chatId : Int) (text : String) :
    World × List Effect :=
  if modGate cfg chatId = false then (w, [])
  else
    let args := pySplit text
    if args.length ≠ 3 then (w, [Effect.reply "❌ Использование: /setlimit user_id limit"])
    else
      match (args.getD 1 "").toNat?, (args.getD 2 "").toInt? with
      | some uid, some lim =>
        if lim < 0 then (w, [Effect.reply "❌ Лимит не может быть отрицательным"])
        else if 50 < lim then (w, [Effect.reply "❌ Максимальный лимит: 50 объявлений"])
        else
          let p := get_user_limit w uid
          let w2 := set_user_limit p.1 uid lim.toNat
          let notif :=
            if p.2 < lim.toNat then
              [Effect.notify uid s!"📈 Ваш лимит объявлений увеличен с {p.2} до {lim.toNat}."]
            else if lim.toNat < p.2 then
              [Effect.notify uid s!"📉 Ваш лимит объявлений уменьшен с {p.2} до {lim.toNat}."]
            else []
          (w2, notif ++ [Effect.reply s!"✅ Лимит для пользователя {uid} установлен: {lim.toNat} объявлений"])
      | _, _ => (w, [Effect.reply "❌ Неверные параметры. Используйте числа."])

/-- Command /getlimit <user_id>: report count and limit. -/
def getlimit_command (cfg : Config) (w : World) (chatId : Int) (text : String) :
    World × List Effect :=
  if modGate cfg chatId = false then (w, [])
  else
    let args := pySplit text
    if args.length ≠ 2 then (w, [Effect.reply "❌ Использование: /getlimit user_id"])
    else
      match (args.getD 1 "").toNat? with
      | none => (w, [Effect.reply "❌ Неверный ID пользователя"])
      | some uid =>
        let p1 := get_user_ad_count w uid
        let p2 := get_user_limit p1.1 uid
        (p2.1, [Effect.reply s!"👤 Пользователь: {uid}\n📊 Объявлений: {p1.2}/{p2.2}\n🔢 Лимит: {p2.2}"])

/-- Command /deladmin <message_id>: look up the ad, derive its display
label, best-effort outward delete, repository delete, notify the owner. -/
def deladmin_command (cfg : Config) (w : World) (chatId : Int) (text : String) :
    World × List Effect :=
  if modGate cfg chatId = false then (w, [])
  else
    let args := pySplit text
    if args.length ≠ 2 then (w, [Effect.reply "❌ Использование: /deladmin message_id"])
    else
      match (args.getD 1 "").toNat? with
      | none => (w, [Effect.reply "❌ Неверный ID сообщения"])
      | some mid =>
        let p := get_ad_by_message_id w mid
        match p.2 with
        | none => (p.1, [Effect.reply "❌ Объявление не найдено в базе данных"])
        | some ad =>
          let pc := get_user_ads_with_counts p.1 ad.1
          let label := match pc.2.find? (fun x => x.1 == mid) with
            | some x => "\"" ++ x.2.2.1 ++ "\""
            | none => "объявление"
          let pd := delete_user_ad pc.1 mid
          (pd.1, [Effect.deleteExternal cfg.TARGET_CHAT_ID mid,
                  Effect.notify ad.1 s!"🗑 Ваше объявление {label} было удалено администрацией из-за нарушения правил.",
                  Effect.reply s!"✅ Объявление {mid} удалено. Пользователь {ad.1} уведомлен."])

/-- The row inserted by the submission flow for owner uid. -/
def rowOf (uid : Nat) (x : Nat × String × String) : Row :=
  ⟨uid, x.1, x.2.1, x.2.2⟩

/-- A sequence of addAd calls for one owner (message id, url, topic). -/
def addMany (w : World) (uid : Nat) (l : List (Nat × String × String)) : World :=
  l.foldl (fun acc x => (add_user_ad acc ⟨uid, x.1, x.2.1, x.2.2⟩).1) w

/-- A sequence of deleteAd calls. -/
def delMany (w : World) (ms : List Nat) : World :=
  ms.foldl (fun acc m => (delete_user_ad acc m).1) w

/-- The world at startup: empty tables, empty cache, time zero. -/
def initWorld : World :=
  ⟨⟨[], [], []⟩, [], [], 0⟩

/-- A world where owner 5 already has four stored ads. -/
def fourAdsWorld : World :=
  ⟨⟨[⟨5, 1, "a", "T"⟩, ⟨5, 2, "b", "T"⟩, ⟨5, 3, "c", "T"⟩, ⟨5, 4, "d", "T"⟩], [], []⟩, [], [], 0⟩

/-- A world where user 7 is banned and owns the stored ad 100. -/
def bannedOwnerWorld : World :=
  ⟨⟨[⟨7, 100, "u", "T"⟩], [7], []⟩, [], [], 0⟩

/-- A session sitting in the writing_ad state with a selected topic. -/
def writingSession : Session :=
  ⟨some StateTag.writing_ad, some "topic_3", none, none, none⟩

theorem find?_key_del (c : List CEntry) (k : CKey) :
    (cacheDel c k).find? (fun e => e.key == k) = none := by
  rw [List.find?_eq_none]
  intro e he
  have h2 := (List.mem_filter.mp he).2
  simp at h2 ⊢
  exact h2

theorem cacheGet_del_self (now : Nat) (c : List CEntry) (k : CKey) :
    cacheGet now (cacheDel c k) k = none := by
  simp [cacheGet, find?_key_del]

theorem find?_key_filter_ne (c : List CEntry) (k k' : CKey) (h : ¬ k = k') :
    (c.filter (fun e => !(e.key == k))).find? (fun e => e.key == k') =
      c.find? (fun e => e.key == k') := by
  induction c with
  | nil => rfl
  | cons e rest ih =>
    by_cases hk : e.key = k
    · have h2 : (e.key == k') = false := by
        simp only [beq_eq_false_iff_ne, ne_eq]
        intro hh
        exact h (hk ▸ hh)
      have h3 : (k == k') = false := by
        simp only [beq_eq_false_iff_ne, ne_eq]
        exact h
      simp [List.filter_cons, hk, List.find?_cons, h2, h3, ih]
    · cases hpe : (e.key == k') with
      | true => simp [List.filter_cons, hk, List.find?_cons, hpe]
      | false => simp [List.filter_cons, hk, List.find?_cons, hpe, ih]

theorem cacheGet_del_ne (now : Nat) (c : List CEntry) (k k' : CKey) (h : ¬ k = k') :
    cacheGet now (cacheDel c k) k' = cacheGet now c k' := by
  simp [cacheGet, cacheDel, find?_key_filter_ne _ _ _ h]

theorem cacheGet_set_ne (now now' ttl : Nat) (c : List CEntry) (k k' : CKey) (v : CVal)
    (h : ¬ k = k') :
    cacheGet now (cacheSet now' c k v ttl) k' = cacheGet now c k' := by
  have hk : ((⟨k, v, now' + ttl⟩ : CEntry).key == k') = false := by
    simp only [beq_eq_false_iff_ne, ne_eq]
    exact h
  simp [cacheGet, cacheSet, List.find?_cons, hk, find?_key_filter_ne _ _ _ h]

theorem contains_filter_self (l : List Nat) (uid : Nat) :
    (l.filter (fun u => !(u == uid))).contains uid = false := by
  rw [Bool.eq_false_iff]
  intro hc
  rw [List.contains_eq_any_beq, List.any_eq_true] at hc
  obtain ⟨x, hx, hbeq⟩ := hc
  have h1 : uid = x := by simpa using hbeq
  have h2 := (List.mem_filter.mp hx).2
  simp [h1] at h2

/-- C7: immediately after unban(u), the banned(u) cache key has been
deleted synchronously, and isBanned(u) returns false at any later time
with no intervening operation. -/
theorem C7_unban_restores_access (w : World) (uid d : Nat) :
    (((unban_user w uid).1).cache.find? (fun e => e.key == CKey.banned uid) = none) ∧
    ((is_user_banned (advance (unban_user w uid).1 d) uid).2 = false) := by
  constructor
  · exact find?_key_del w.cache (CKey.banned uid)
  · have h1 : cacheGet (w.now + d) (cacheDel w.cache (CKey.banned uid)) (CKey.banned uid)
        = none := cacheGet_del_self _ _ _
    simp [is_user_banned, advance, unban_user, h1, contains_filter_self]

/-- C10: a cached empty ads list is treated as a cache miss by the
truthiness guard of get_user_ads, so the store is queried again and the
key repopulated with a fresh expiry, even while the cached entry is
unexpired. -/
theorem C10_empty_list_cache_miss (w : World) (uid : Nat)
    (h : cacheGet w.now w.cache (CKey.userAds uid) = some (CVal.vAds [])) :
    (get_user_ads w uid).2 = dbAdsFor w uid ∧
    ((get_user_ads w uid).1).cache.find? (fun e => e.key == CKey.userAds uid) =
      some ⟨CKey.userAds uid, CVal.vAds (dbAdsFor w uid), w.now + 300⟩ := by
  constructor
  · simp [get_user_ads, h]
  · simp [get_user_ads, h, cacheSet, List.find?_cons]

/-- C10 witness: owner 3 has one stored ad but a stale unexpired cached
empty list; the call returns the stored ad, not the cached empty list. -/
theorem C10_witness :
    cacheGet (⟨⟨[⟨3, 9, "u", "T"⟩], [], []⟩, [⟨CKey.userAds 3, CVal.vAds [], 50⟩], [], 0⟩ : World).now
        (⟨⟨[⟨3, 9, "u", "T"⟩], [], []⟩, [⟨CKey.userAds 3, CVal.vAds [], 50⟩], [], 0⟩ : World).cache
        (CKey.userAds 3) = some (CVal.vAds []) ∧
    ((get_user_ads (⟨⟨[⟨3, 9, "u", "T"⟩], [], []⟩, [⟨CKey.userAds 3, CVal.vAds [], 50⟩], [], 0⟩ : World) 3).2 =
      dbAdsFor (⟨⟨[⟨3, 9, "u", "T"⟩], [], []⟩, [⟨CKey.userAds 3, CVal.vAds [], 50⟩], [], 0⟩ : World) 3 ∧
    ((get_user_ads (⟨⟨[⟨3, 9, "u", "T"⟩], [], []⟩, [⟨CKey.userAds 3, CVal.vAds [], 50⟩], [], 0⟩ : World) 3).1).cache.find?
        (fun e => e.key == CKey.userAds 3) =
      some ⟨CKey.userAds 3, CVal.vAds (dbAdsFor (⟨⟨[⟨3, 9, "u", "T"⟩], [], []⟩, [⟨CKey.userAds 3, CVal.vAds [], 50⟩], [], 0⟩ : World) 3), 0 + 300⟩) :=
  ⟨rfl, C10_empty_list_cache_miss _ 3 rfl⟩

/-- C2 (code bug): with an explicit override row of 0 — which
/setlimit accepts — get_user_limit returns the default 4, because the
database result is guarded by truthiness; a nonzero override reads back
correctly. -/
theorem C2_limit_zero_reads_default :
    ((set_user_limit initWorld 7 0).db.limits.find? (fun p => p.1 == 7) = some (7, 0)) ∧
    ((get_user_limit (set_user_limit initWorld 7 0) 7).2 = 4) ∧
    ((get_user_limit (set_user_limit initWorld 7 10) 7).2 = 10) := by
  refine ⟨rfl, rfl, rfl⟩

/-- C9: every moderation command invoked from a chat other than the
configured moderation chat — or with no moderation chat configured —
returns the world unchanged and produces no effect of any kind. -/
theorem C9_moderation_gate (cfg : Config) (w : World) (chatId : Int) (text : String)
    (h : cfg.MODERATION_CHAT_ID = 0 ∨ chatId ≠ cfg.MODERATION_CHAT_ID) :
    ban_command cfg w chatId text = (w, []) ∧
    banall_command cfg w chatId text = (w, []) ∧
    banoff_command cfg w chatId text = (w, []) ∧
    setlimit_command cfg w chatId text = (w, []) ∧
    getlimit_command cfg w chatId text = (w, []) ∧
    deladmin_command cfg w chatId text = (w, []) := by
  have hg : modGate cfg chatId = false := by
    rcases h with h | h
    · simp [modGate, h]
    · simp [modGate, h]
  refine ⟨?_, ?_, ?_, ?_, ?_, ?_⟩ <;>
    simp [ban_command, banall_command, banoff_command, setlimit_command,
      getlimit_command, deladmin_command, hg]

/-- C9 witness: a /ban text sent from chat 7 while the moderation chat is
500 is ignored by all six commands. -/
theorem C9_witness :
    ((⟨-100, 500⟩ : Config).MODERATION_CHAT_ID = 0 ∨ (7 : Int) ≠ (⟨-100, 500⟩ : Config).MODERATION_CHAT_ID) ∧
    (ban_command ⟨-100, 500⟩ initWorld 7 "/ban 1" = (initWorld, []) ∧
     banall_command ⟨-100, 500⟩ initWorld 7 "/ban 1" = (initWorld, []) ∧
     banoff_command ⟨-100, 500⟩ initWorld 7 "/ban 1" = (initWorld, []) ∧
     setlimit_command ⟨-100, 500⟩ initWorld 7 "/ban 1" = (initWorld, []) ∧
     getlimit_command ⟨-100, 500⟩ initWorld 7 "/ban 1" = (initWorld, []) ∧
     deladmin_command ⟨-100, 500⟩ initWorld 7 "/ban 1" = (initWorld, [])) :=
  ⟨Or.inr (by decide),
    C9_moderation_gate ⟨-100, 500⟩ initWorld 7 "/ban 1" (Or.inr (by decide))⟩

theorem find?_row_filter (ads : List Row) (mid : Nat) :
    (ads.filter (fun a => !(a.message_id == mid))).find? (fun a => a.message_id == mid)
      = none := by
  rw [List.find?_eq_none]
  intro a ha
  have h2 := (List.mem_filter.mp ha).2
  simp at h2 ⊢
  exact h2

/-- C4: after addAd then deleteAd on the same message identity, the
delete succeeds, the ad(mid) cache entry has been removed outright (not
merely left to expire), and getAdByMessageId returns absent at any later
time; deleteAd returns false when no row with the identity exists. -/
theorem C4_add_delete_absent :
    (∀ (w : World) (r : Row) (d : Nat), (add_user_ad w r).2 = true →
      (delete_user_ad (add_user_ad w r).1 r.message_id).2 = true ∧
      ((delete_user_ad (add_user_ad w r).1 r.message_id).1).cache.find?
        (fun e => e.key == CKey.ad r.message_id) = none ∧
      (get_ad_by_message_id
          (advance (delete_user_ad (add_user_ad w r).1 r.message_id).1 d)
          r.message_id).2 = none) ∧
    (∀ (w : World) (mid : Nat), (∀ a ∈ w.db.ads, a.message_id ≠ mid) →
      (delete_user_ad w mid).2 = false) := by
  constructor
  · intro w r d h
    by_cases hany : w.db.ads.any (fun a => a.message_id == r.message_id) = true
    · rw [add_user_ad, if_pos hany] at h
      simp at h
    · have hne := Bool.not_eq_true _ |>.mp hany
      rw [add_user_ad, if_neg hany] at h ⊢
      have hfind : (r :: w.db.ads).find? (fun a => a.message_id == r.message_id)
          = some r := by
        simp [List.find?_cons]
      refine ⟨by simp [delete_user_ad, hfind], ?_, ?_⟩
      · simp only [delete_user_ad, hfind]
        exact find?_key_del _ _
      · simp only [delete_user_ad, hfind]
        have hcg : ∀ n c, cacheGet n (cacheDel c (CKey.ad r.message_id))
            (CKey.ad r.message_id) = none := fun n c => cacheGet_del_self n c _
        have hnone : List.find? (fun _ : Row => false) w.db.ads = none := by
          rw [List.find?_eq_none]
          intro a _
          simp
        simp [get_ad_by_message_id, advance, hcg, find?_row_filter, hnone]
  · intro w mid h
    have hfind : w.db.ads.find? (fun a => a.message_id == mid) = none := by
      rw [List.find?_eq_none]
      intro a ha
      simp
      exact h a ha
    simp [delete_user_ad, hfind]

/-- C4 witness: a concrete add of message 9 for owner 3 followed by its
delete exercises the theorem. -/
theorem C4_witness :
    ((add_user_ad initWorld ⟨3, 9, "u", "T"⟩).2 = true) ∧
    ((delete_user_ad (add_user_ad initWorld ⟨3, 9, "u", "T"⟩).1 9).2 = true ∧
     ((delete_user_ad (add_user_ad initWorld ⟨3, 9, "u", "T"⟩).1 9).1).cache.find?
        (fun e => e.key == CKey.ad 9) = none ∧
     (get_ad_by_message_id
        (advance (delete_user_ad (add_user_ad initWorld ⟨3, 9, "u", "T"⟩).1 9).1 10) 9).2
       = none) ∧
    ((∀ a ∈ initWorld.db.ads, a.message_id ≠ 8) ∧ (delete_user_ad initWorld 8).2 = false) := by
  refine ⟨by decide, C4_add_delete_absent.1 initWorld ⟨3, 9, "u", "T"⟩ 10 (by decide), ?_, ?_⟩
  · intro a ha
    simp [initWorld] at ha
  · exact C4_add_delete_absent.2 initWorld 8 (by intro a ha; simp [initWorld] at ha)

theorem overlayGo_length (counts : String → Nat) (l : List (Nat × String × String)) :
    (overlayGo counts l).length = l.length := by
  induction l generalizing counts with
  | nil => rfl
  | cons hd tl ih =>
    obtain ⟨mid, url, t⟩ := hd
    simp [overlayGo, ih]

theorem overlayGo_get (counts : String → Nat) (l : List (Nat × String × String)) (i : Nat) :
    (overlayGo counts l)[i]? = (l[i]?).map (fun x =>
      (x.1, x.2.1,
        x.2.2 ++ " " ++ toString (counts x.2.2 +
          ((l.take (i + 1)).filter (fun y => y.2.2 == x.2.2)).length),
        x.2.2)) := by
  induction l generalizing counts i with
  | nil => simp [overlayGo]
  | cons hd tl ih =>
    obtain ⟨mid, url, t⟩ := hd
    cases i with
    | zero =>
      simp [overlayGo, List.take_succ_cons, List.filter_cons]
    | succ j =>
      simp only [overlayGo, List.getElem?_cons_succ]
      rw [ih]
      cases htl : tl[j]? with
      | none => simp
      | some x =>
        obtain ⟨m2, u2, t2⟩ := x
        simp only [Option.map_some, List.take_succ_cons, List.filter_cons]
        by_cases ht : t2 = t
        · subst ht
          simp
          congr 1
          congr 1
          omega
        · have ht2 : ¬ t = t2 := fun hh => ht hh.symm
          simp [ht, ht2]

/-- C8: listAdsWithTopicCounters preserves the length and order of
listAds, and labels position i with its topic followed by the number of
occurrences of that topic among the first i+1 entries of listAds — so the
k-th ad of a topic, in newest-first source order, carries counter k. -/
theorem C8_topic_counters (w : World) (uid : Nat) :
    ((get_user_ads_with_counts w uid).2).length = ((get_user_ads w uid).2).length ∧
    (∀ i : Nat, ((get_user_ads_with_counts w uid).2)[i]? =
      (((get_user_ads w uid).2)[i]?).map (fun x =>
        (x.1, x.2.1,
          x.2.2 ++ " " ++ toString
            ((((get_user_ads w uid).2).take (i + 1)).filter
              (fun y => y.2.2 == x.2.2)).length,
          x.2.2))) := by
  constructor
  · exact overlayGo_length _ _
  · intro i
    have h := overlayGo_get (fun _ => 0) ((get_user_ads w uid).2) i
    simpa using h

theorem find?_none_of_filter (p q : CEntry → Bool) (c : List CEntry)
    (h : c.find? p = none) : (c.filter q).find? p = none := by
  rw [List.find?_eq_none] at h ⊢
  intro e he
  exact h e (List.mem_filter.mp he).1

theorem cacheGet_of_find?_none (now : Nat) (c : List CEntry) (k : CKey)
    (h : c.find? (fun e => e.key == k) = none) : cacheGet now c k = none := by
  simp [cacheGet, h]

theorem addMany_cache_none (uid : Nat) (l : List (Nat × String × String)) (k : CKey) :
    ∀ w : World, w.cache.find? (fun e => e.key == k) = none →
      (addMany w uid l).cache.find? (fun e => e.key == k) = none := by
  induction l with
  | nil => intro w h; exact h
  | cons x rest ih =>
    intro w h
    show (addMany (add_user_ad w ⟨uid, x.1, x.2.1, x.2.2⟩).1 uid rest).cache.find? _ = none
    apply ih
    by_cases hany : w.db.ads.any (fun a => a.message_id == (⟨uid, x.1, x.2.1, x.2.2⟩ : Row).message_id) = true
    · rw [add_user_ad, if_pos hany]
      exact h
    · rw [add_user_ad, if_neg hany]
      exact find?_none_of_filter _ _ _ (find?_none_of_filter _ _ _ h)

theorem delMany_cache_none (ms : List Nat) (k : CKey) :
    ∀ w : World, w.cache.find? (fun e => e.key == k) = none →
      (delMany w ms).cache.find? (fun e => e.key == k) = none := by
  induction ms with
  | nil => intro w h; exact h
  | cons m rest ih =>
    intro w h
    show (delMany (delete_user_ad w m).1 rest).cache.find? _ = none
    apply ih
    cases hf : w.db.ads.find? (fun a => a.message_id == m) with
    | none => rw [delete_user_ad, hf]; exact h
    | some r =>
      rw [delete_user_ad, hf]
      exact find?_none_of_filter _ _ _
        (find?_none_of_filter _ _ _ (find?_none_of_filter _ _ _ h))

theorem addMany_ads (uid : Nat) (l : List (Nat × String × String)) :
    ∀ w : World, (l.map (fun x => x.1)).Nodup →
      (∀ a ∈ w.db.ads, ∀ x ∈ l, a.message_id ≠ x.1) →
      (addMany w uid l).db.ads = (l.map (rowOf uid)).reverse ++ w.db.ads := by
  induction l with
  | nil => intro w _ _; simp [addMany]
  | cons x rest ih =>
    intro w hnodup hfresh
    have hany : w.db.ads.any (fun a => a.message_id == x.1) = false := by
      rw [Bool.eq_false_iff]
      intro hc
      rw [List.any_eq_true] at hc
      obtain ⟨a, ha, hbeq⟩ := hc
      exact hfresh a ha x (by simp) (by simpa using hbeq)
    have hstep : (add_user_ad w (rowOf uid x)).1 =
        { w with
            db := { w.db with ads := rowOf uid x :: w.db.ads },
            cache := cacheDel (cacheDel w.cache (CKey.userAds uid)) (CKey.adCount uid) } := by
      rw [add_user_ad, if_neg (by simp [rowOf, hany])]
      rfl
    show (addMany (add_user_ad w (rowOf uid x)).1 uid rest).db.ads = _
    rw [hstep, ih]
    · simp [rowOf]
    · exact (List.nodup_cons.mp (by simpa using hnodup)).2
    · intro a ha y hy
      rcases List.mem_cons.mp ha with h1 | h1
      · have hx1 : x.1 ∉ rest.map (fun x => x.1) :=
          (List.nodup_cons.mp (by simpa using hnodup)).1
        intro hcontra
        apply hx1
        rw [h1] at hcontra
        simp only [rowOf] at hcontra
        exact hcontra ▸ List.mem_map.mpr ⟨y, hy, rfl⟩
      · exact hfresh a h1 y (List.mem_cons_of_mem _ hy)

theorem delMany_ads (ms : List Nat) :
    ∀ w : World, ms.Nodup →
      (∀ m ∈ ms, ∃ a ∈ w.db.ads, a.message_id = m) →
      (delMany w ms).db.ads = w.db.ads.filter (fun a => !(ms.contains a.message_id)) := by
  induction ms with
  | nil =>
    intro w _ _
    show w.db.ads = _
    refine (List.filter_eq_self.mpr ?_).symm
    intro a _
    simp
  | cons m rest ih =>
    intro w hnodup hex
    obtain ⟨hmnotin, hrest⟩ := List.nodup_cons.mp hnodup
    obtain ⟨a0, ha0, ha0m⟩ := hex m (by simp)
    have hsome : (w.db.ads.find? (fun a => a.message_id == m)).isSome = true := by
      rw [List.find?_isSome]
      exact ⟨a0, ha0, by simp [ha0m]⟩
    obtain ⟨r, hr⟩ := Option.isSome_iff_exists.mp hsome
    have hstep : (delete_user_ad w m).1 =
        { w with
            db := { w.db with ads := w.db.ads.filter (fun a => !(a.message_id == m)) },
            cache := cacheDel (cacheDel (cacheDel w.cache (CKey.userAds r.user_id))
              (CKey.adCount r.user_id)) (CKey.ad m) } := by
      rw [delete_user_ad, hr]
    show (delMany (delete_user_ad w m).1 rest).db.ads = _
    rw [hstep, ih]
    · rw [List.filter_filter]
      apply List.filter_congr
      intro a _
      rw [List.contains_cons]
      cases hx : (a.message_id == m) <;> cases hy : rest.contains a.message_id <;> rfl
    · exact hrest
    · intro m' hm'
      obtain ⟨a, ha, ham⟩ := hex m' (List.mem_cons_of_mem _ hm')
      refine ⟨a, ?_, ham⟩
      rw [List.mem_filter]
      refine ⟨ha, ?_⟩
      simp only [Bool.not_eq_eq_eq_not, Bool.not_true, beq_eq_false_iff_ne, ne_eq]
      intro hc
      rw [ham] at hc
      exact hmnotin (hc ▸ hm')

theorem length_filter_ne_one (m : Nat) : ∀ l : List (Nat × String × String),
    (l.map (fun x => x.1)).Nodup → m ∈ l.map (fun x => x.1) →
    (l.filter (fun x => !(x.1 == m))).length = l.length - 1 := by
  intro l
  induction l with
  | nil => simp
  | cons x rest ih =>
    intro hnodup hmem
    rw [List.map_cons, List.nodup_cons] at hnodup
    obtain ⟨hnotin, hrest⟩ := hnodup
    by_cases hx : x.1 = m
    · have hfil : rest.filter (fun y => !(y.1 == m)) = rest := by
        rw [List.filter_eq_self]
        intro a ha
        simp only [Bool.not_eq_eq_eq_not, Bool.not_true, beq_eq_false_iff_ne, ne_eq]
        intro hc
        exact hnotin (hx ▸ hc ▸ List.mem_map.mpr ⟨a, ha, rfl⟩)
      simp [List.filter_cons, hx, hfil]
    · have hmem' : m ∈ rest.map (fun x => x.1) := by
        rcases List.mem_cons.mp (by simpa using hmem : m ∈ x.1 :: rest.map (fun x => x.1))
          with h1 | h1
        · exact absurd h1.symm hx
        · exact h1
      have hlen : 1 ≤ rest.length := by
        cases rest with
        | nil => simp at hmem'
        | cons _ _ => simp
      have hxne : (x.1 == m) = false := by
        simp only [beq_eq_false_iff_ne, ne_eq]
        exact hx
      have hcond : (!(x.1 == m)) = true := by rw [hxne]; rfl
      simp only [List.filter_cons, hcond, if_true, List.length_cons, List.map_cons,
        ih hrest hmem']
      omega

theorem length_filter_not_contains : ∀ (ms : List Nat) (l : List (Nat × String × String)),
    (l.map (fun x => x.1)).Nodup → ms.Nodup → (∀ m ∈ ms, m ∈ l.map (fun x => x.1)) →
    (l.filter (fun x => !(ms.contains x.1))).length = l.length - ms.length := by
  intro ms
  induction ms with
  | nil =>
    intro l _ _ _
    have : l.filter (fun x => !(([] : List Nat).contains x.1)) = l := by
      rw [List.filter_eq_self]
      intro a _
      simp
    simp [this]
  | cons m rest ih =>
    intro l hl hms hsub
    obtain ⟨hmnot, hrest⟩ := List.nodup_cons.mp hms
    have hsplit : l.filter (fun x => !((m :: rest).contains x.1)) =
        (l.filter (fun x => !(x.1 == m))).filter (fun x => !(rest.contains x.1)) := by
      rw [List.filter_filter]
      apply List.filter_congr
      intro a _
      rw [List.contains_cons]
      cases hx : (a.1 == m) <;> cases hy : rest.contains a.1 <;> rfl
    have hl'len : (l.filter (fun x => !(x.1 == m))).length = l.length - 1 :=
      length_filter_ne_one m l hl (hsub m (by simp))
    have hl'nodup : ((l.filter (fun x => !(x.1 == m))).map (fun x => x.1)).Nodup :=
      List.Nodup.sublist (List.Sublist.map _ (List.filter_sublist l)) hl
    have hsub' : ∀ m' ∈ rest, m' ∈ (l.filter (fun x => !(x.1 == m))).map (fun x => x.1) := by
      intro m' hm'
      obtain ⟨a, ha, ha1⟩ := List.mem_map.mp (hsub m' (List.mem_cons_of_mem _ hm'))
      refine List.mem_map.mpr ⟨a, ?_, ha1⟩
      rw [List.mem_filter]
      refine ⟨ha, ?_⟩
      simp only [Bool.not_eq_eq_eq_not, Bool.not_true, beq_eq_false_iff_ne, ne_eq]
      intro hc
      rw [ha1] at hc
      exact hmnot (hc ▸ hm')
    have hlpos : 1 ≤ l.length := by
      have := hsub m (by simp)
      cases l with
      | nil => simp at this
      | cons _ _ => simp
    rw [hsplit, ih _ hl'nodup hrest hsub', hl'len, List.length_cons]
    omega

/-- C5: from a state where the owner has no rows, no cached count, and
the submitted message identities are fresh and distinct, countAds returns
N after N successful adds, N - M after M subsequent deletes of M of those
identities, and is never negative. -/
theorem C5_count_accumulation (w : World) (uid : Nat)
    (l : List (Nat × String × String)) (ms : List Nat)
    (hnodup : (l.map (fun x => x.1)).Nodup)
    (hfresh : ∀ a ∈ w.db.ads, ∀ x ∈ l, a.message_id ≠ x.1)
    (hempty : ∀ a ∈ w.db.ads, a.user_id ≠ uid)
    (hccache : w.cache.find? (fun e => e.key == CKey.adCount uid) = none)
    (hsub : ∀ m ∈ ms, m ∈ l.map (fun x => x.1))
    (hmsnodup : ms.Nodup) :
    (get_user_ad_count (addMany w uid l) uid).2 = l.length ∧
    (get_user_ad_count (delMany (addMany w uid l) ms) uid).2 = l.length - ms.length ∧
    0 ≤ (get_user_ad_count (delMany (addMany w uid l) ms) uid).2 := by
  have hads := addMany_ads uid l w hnodup hfresh
  have hc1 := addMany_cache_none uid l (CKey.adCount uid) w hccache
  have hkey1 : cacheGet (addMany w uid l).now (addMany w uid l).cache (CKey.adCount uid)
      = none := cacheGet_of_find?_none _ _ _ hc1
  have h1 : ((l.map (rowOf uid)).reverse.filter (fun a => a.user_id == uid))
      = (l.map (rowOf uid)).reverse := by
    rw [List.filter_eq_self]
    intro a ha
    obtain ⟨x, _, rfl⟩ := List.mem_map.mp (List.mem_reverse.mp ha)
    simp [rowOf]
  have h2 : (w.db.ads.filter (fun a => a.user_id == uid)) = [] := by
    rw [List.filter_eq_nil_iff]
    intro a ha
    simpa using hempty a ha
  refine ⟨?_, ?_, Nat.zero_le _⟩
  · simp only [get_user_ad_count, hkey1]
    rw [hads, List.filter_append, h1, h2]
    simp
  · have hexist : ∀ m ∈ ms, ∃ a ∈ (addMany w uid l).db.ads, a.message_id = m := by
      intro m hm
      obtain ⟨x, hx, hx1⟩ := List.mem_map.mp (hsub m hm)
      refine ⟨rowOf uid x, ?_, by simp [rowOf, hx1]⟩
      rw [hads]
      exact List.mem_append_left _ (List.mem_reverse.mpr (List.mem_map.mpr ⟨x, hx, rfl⟩))
    have hdel := delMany_ads ms (addMany w uid l) hmsnodup hexist
    have hc2 := delMany_cache_none ms (CKey.adCount uid) _ hc1
    have hkey2 : cacheGet (delMany (addMany w uid l) ms).now
        (delMany (addMany w uid l) ms).cache (CKey.adCount uid) = none :=
      cacheGet_of_find?_none _ _ _ hc2
    simp only [get_user_ad_count, hkey2]
    rw [hdel, hads, List.filter_append, List.filter_append]
    have hA : (((l.map (rowOf uid)).reverse.filter
        (fun a => !(ms.contains a.message_id))).filter (fun a => a.user_id == uid))
        = ((l.map (rowOf uid)).reverse.filter (fun a => !(ms.contains a.message_id))) := by
      rw [List.filter_eq_self]
      intro a ha
      have ha2 := (List.mem_filter.mp ha).1
      obtain ⟨x, _, rfl⟩ := List.mem_map.mp (List.mem_reverse.mp ha2)
      simp [rowOf]
    have hB : ((w.db.ads.filter (fun a => !(ms.contains a.message_id))).filter
        (fun a => a.user_id == uid)) = [] := by
      rw [List.filter_eq_nil_iff]
      intro a ha
      simpa using hempty a (List.mem_filter.mp ha).1
    rw [hA, hB, List.length_append, List.filter_reverse, List.length_reverse,
      List.filter_map]
    have hpred : (l.filter ((fun a => !(ms.contains a.message_id)) ∘ rowOf uid))
        = l.filter (fun x => !(ms.contains x.1)) :=
      List.filter_congr (fun x _ => rfl)
    rw [List.length_map, hpred, length_filter_not_contains ms l hnodup hmsnodup hsub]
    simp

/-- C5 witness: two fresh adds for owner 5 then one delete give counts 2
and 1. -/
theorem C5_witness :
    (get_user_ad_count (addMany initWorld 5 [(1, "a", "T"), (2, "b", "T")]) 5).2 = 2 ∧
    (get_user_ad_count (delMany (addMany initWorld 5 [(1, "a", "T"), (2, "b", "T")]) [1]) 5).2
      = 2 - 1 ∧
    0 ≤ (get_user_ad_count (delMany (addMany initWorld 5 [(1, "a", "T"), (2, "b", "T")]) [1]) 5).2 :=
  C5_count_accumulation initWorld 5 [(1, "a", "T"), (2, "b", "T")] [1]
    (by decide)
    (by intro a ha; simp [initWorld] at ha)
    (by intro a ha; simp [initWorld] at ha)
    (by decide)
    (by decide)
    (by decide)

theorem is_user_banned_spec (w : World) (uid : Nat) :
    ((is_user_banned w uid).1).db = w.db ∧
    ((is_user_banned w uid).1).now = w.now ∧
    ((is_user_banned w uid).1).rateLim = w.rateLim ∧
    (∀ n k, ¬ CKey.banned uid = k →
      cacheGet n ((is_user_banned w uid).1).cache k = cacheGet n w.cache k) := by
  unfold is_user_banned
  cases h : cacheGet w.now w.cache (CKey.banned uid) with
  | none =>
    exact ⟨rfl, rfl, rfl, fun n k hk => cacheGet_set_ne n w.now 300 w.cache _ k _ hk⟩
  | some v =>
    cases v <;>
      first
      | exact ⟨rfl, rfl, rfl, fun n k hk => rfl⟩
      | exact ⟨rfl, rfl, rfl, fun n k hk => cacheGet_set_ne n w.now 300 w.cache _ k _ hk⟩

theorem is_user_banned_val (w w' : World) (uid : Nat)
    (hdb : w'.db.banned = w.db.banned)
    (hcg : cacheGet w'.now w'.cache (CKey.banned uid) = cacheGet w.now w.cache (CKey.banned uid)) :
    (is_user_banned w' uid).2 = (is_user_banned w uid).2 := by
  unfold is_user_banned
  rw [hcg]
  cases h : cacheGet w.now w.cache (CKey.banned uid) with
  | none => simp [hdb]
  | some v => cases v <;> simp [hdb]

theorem get_user_ad_count_spec (w : World) (uid : Nat) :
    ((get_user_ad_count w uid).1).db = w.db ∧
    ((get_user_ad_count w uid).1).now = w.now ∧
    ((get_user_ad_count w uid).1).rateLim = w.rateLim ∧
    (∀ n k, ¬ CKey.adCount uid = k →
      cacheGet n ((get_user_ad_count w uid).1).cache k = cacheGet n w.cache k) := by
  unfold get_user_ad_count
  cases h : cacheGet w.now w.cache (CKey.adCount uid) with
  | none =>
    exact ⟨rfl, rfl, rfl, fun n k hk => cacheGet_set_ne n w.now 60 w.cache _ k _ hk⟩
  | some v =>
    cases v <;>
      first
      | exact ⟨rfl, rfl, rfl, fun n k hk => rfl⟩
      | exact ⟨rfl, rfl, rfl, fun n k hk => cacheGet_set_ne n w.now 60 w.cache _ k _ hk⟩

theorem get_user_ad_count_val (w w' : World) (uid : Nat)
    (hdb : w'.db.ads = w.db.ads)
    (hcg : cacheGet w'.now w'.cache (CKey.adCount uid)
      = cacheGet w.now w.cache (CKey.adCount uid)) :
    (get_user_ad_count w' uid).2 = (get_user_ad_count w uid).2 := by
  unfold get_user_ad_count
  rw [hcg]
  cases h : cacheGet w.now w.cache (CKey.adCount uid) with
  | none => simp [hdb]
  | some v => cases v <;> simp [hdb]

theorem get_user_limit_spec (w : World) (uid : Nat) :
    ((get_user_limit w uid).1).db = w.db ∧
    ((get_user_limit w uid).1).now = w.now ∧
    ((get_user_limit w uid).1).rateLim = w.rateLim ∧
    (∀ n k, ¬ CKey.userLimit uid = k →
      cacheGet n ((get_user_limit w uid).1).cache k = cacheGet n w.cache k) := by
  unfold get_user_limit
  cases h : cacheGet w.now w.cache (CKey.userLimit uid) with
  | none =>
    exact ⟨rfl, rfl, rfl, fun n k hk => cacheGet_set_ne n w.now 600 w.cache _ k _ hk⟩
  | some v =>
    cases v <;>
      first
      | exact ⟨rfl, rfl, rfl, fun n k hk => rfl⟩
      | exact ⟨rfl, rfl, rfl, fun n k hk => cacheGet_set_ne n w.now 600 w.cache _ k _ hk⟩

theorem get_user_limit_val (w w' : World) (uid : Nat)
    (hdb : w'.db.limits = w.db.limits)
    (hcg : cacheGet w'.now w'.cache (CKey.userLimit uid)
      = cacheGet w.now w.cache (CKey.userLimit uid)) :
    (get_user_limit w' uid).2 = (get_user_limit w uid).2 := by
  unfold get_user_limit
  rw [hcg]
  cases h : cacheGet w.now w.cache (CKey.userLimit uid) with
  | none => simp [hdb]
  | some v => cases v <;> simp [hdb]

/-- C6: a text submission from a user whose current ad count has reached
their limit is rejected with the limit message showing count and limit,
no row is inserted (the whole database is unchanged), nothing is
published, and the session is cleared. -/
theorem C6_limit_exceeded (cfg : Config) (w : World) (s : Session) (uid : Nat)
    (username : Option String) (chatId : Int) (text : String) (pubOk : Bool) (newMid : Nat)
    (h0 : uid ≠ 0)
    (h1 : (freshRequests w uid).length < 10)
    (h2 : (is_user_banned w uid).2 = false)
    (h3 : ¬ chatId = cfg.TARGET_CHAT_ID)
    (h4 : (get_user_limit ((get_user_ad_count w uid).1) uid).2 ≤ (get_user_ad_count w uid).2) :
    (ad_text_handler cfg w s uid username chatId text pubOk newMid).1.db = w.db ∧
    (ad_text_handler cfg w s uid username chatId text pubOk newMid).2.1 = clearedSession ∧
    (ad_text_handler cfg w s uid username chatId text pubOk newMid).2.2 =
      [Effect.reply (limitMessage ((get_user_ad_count w uid).2)
        ((get_user_limit ((get_user_ad_count w uid).1) uid).2))] := by
  set wa : World := { w with rateLim := setBucket w.rateLim uid (freshRequests w uid ++ [w.now]) }
    with hwa
  set wb : World := (is_user_banned wa uid).1 with hwb
  have hwanow : wa.now = w.now := rfl
  have hwacache : wa.cache = w.cache := rfl
  have hwadb : wa.db = w.db := rfl
  obtain ⟨hbdb, hbnow, _, hbcg⟩ := is_user_banned_spec wa uid
  have hbval : (is_user_banned wa uid).2 = false := by
    rw [is_user_banned_val w wa uid rfl rfl]
    exact h2
  have hcval : (get_user_ad_count wb uid).2 = (get_user_ad_count w uid).2 := by
    apply get_user_ad_count_val
    · rw [← hwb] at hbdb
      rw [hbdb, hwadb]
    · rw [← hwb] at hbnow hbcg
      rw [hbnow, hwanow, hbcg w.now _ (by simp), hwacache]
  obtain ⟨hcdb, hcnow, _, hccg⟩ := get_user_ad_count_spec wb uid
  obtain ⟨hcdb', hcnow', _, hccg'⟩ := get_user_ad_count_spec w uid
  have hlval : (get_user_limit (get_user_ad_count wb uid).1 uid).2
      = (get_user_limit (get_user_ad_count w uid).1 uid).2 := by
    apply get_user_limit_val
    · rw [← hwb] at hbdb
      rw [hcdb, hcdb', hbdb, hwadb]
    · rw [← hwb] at hbdb hbnow hbcg
      rw [hcnow, hcnow', hbnow, hwanow]
      rw [hccg _ _ (by simp), hbcg _ _ (by simp), hwacache, hccg' _ _ (by simp)]
  have hguard : (get_user_limit (get_user_ad_count wb uid).1 uid).2
      ≤ (get_user_ad_count wb uid).2 := by
    rw [hlval, hcval]
    exact h4
  have hmain : ad_text_handler cfg w s uid username chatId text pubOk newMid
      = ((get_user_limit (get_user_ad_count wb uid).1 uid).1, clearedSession,
         [Effect.reply (limitMessage ((get_user_ad_count wb uid).2)
           ((get_user_limit (get_user_ad_count wb uid).1 uid).2))]) := by
    simp only [ad_text_handler, run_rate_limit]
    rw [if_neg h0, if_neg (by omega : ¬ 10 ≤ (freshRequests w uid).length)]
    rw [← hwa]
    simp only [run_ban_check]
    rw [if_neg h0]
    have hcond : ((is_user_banned wa uid).2 = true) = False := by
      simp [hbval]
    simp only [hcond, if_false, ← hwb]
    simp only [ad_text_body]
    rw [if_neg h3, if_pos hguard]
  rw [hmain]
  obtain ⟨hldb, _, _, _⟩ := get_user_limit_spec (get_user_ad_count wb uid).1 uid
  refine ⟨?_, rfl, ?_⟩
  · rw [← hwb] at hbdb
    rw [hldb, hcdb, hbdb, hwadb]
  · rw [hcval, hlval]

/-- C6 witness: owner 5 with four stored ads and the default limit 4 has
a submission rejected with the 4/4 limit message and a cleared session. -/
theorem C6_witness :
    ((5 : Nat) ≠ 0 ∧ (freshRequests fourAdsWorld 5).length < 10 ∧
     (is_user_banned fourAdsWorld 5).2 = false ∧
     ¬ (77 : Int) = (⟨-100, 0⟩ : Config).TARGET_CHAT_ID ∧
     (get_user_limit ((get_user_ad_count fourAdsWorld 5).1) 5).2
       ≤ (get_user_ad_count fourAdsWorld 5).2) ∧
    ((ad_text_handler ⟨-100, 0⟩ fourAdsWorld writingSession 5 none 77 "hello" true 9).1.db
        = fourAdsWorld.db ∧
     (ad_text_handler ⟨-100, 0⟩ fourAdsWorld writingSession 5 none 77 "hello" true 9).2.1
        = clearedSession ∧
     (ad_text_handler ⟨-100, 0⟩ fourAdsWorld writingSession 5 none 77 "hello" true 9).2.2 =
       [Effect.reply (limitMessage ((get_user_ad_count fourAdsWorld 5).2)
         ((get_user_limit ((get_user_ad_count fourAdsWorld 5).1) 5).2))]) :=
  ⟨⟨by decide, by decide, by decide, by decide, by decide⟩,
   C6_limit_exceeded ⟨-100, 0⟩ fourAdsWorld writingSession 5 none 77 "hello" true 9
     (by decide) (by decide) (by decide) (by decide) (by decide)⟩

theorem get_user_ads_spec (w : World) (uid : Nat) :
    ((get_user_ads w uid).1).db = w.db ∧ ((get_user_ads w uid).1).now = w.now := by
  unfold get_user_ads
  split
  · exact ⟨rfl, rfl⟩
  · exact ⟨rfl, rfl⟩

theorem get_user_ads_with_counts_db (w : World) (uid : Nat) :
    ((get_user_ads_with_counts w uid).1).db = w.db :=
  (get_user_ads_spec w uid).1

theorem get_user_limit_db (w : World) (uid : Nat) :
    ((get_user_limit w uid).1).db = w.db :=
  (get_user_limit_spec w uid).1

theorem wrapped_banned_reject (w : World) (uid : Nat) (s : Session)
    (k : World → World × Session × List Effect)
    (h0 : uid ≠ 0) (h1 : (freshRequests w uid).length < 10)
    (h2 : (is_user_banned w uid).2 = true) :
    run_rate_limit w uid s (fun w1 => run_ban_check w1 uid s k)
      = ((is_user_banned
            { w with rateLim := setBucket w.rateLim uid (freshRequests w uid ++ [w.now]) }
            uid).1,
         s, [Effect.alert bannedNotice]) := by
  set wa : World := { w with rateLim := setBucket w.rateLim uid (freshRequests w uid ++ [w.now]) }
    with hwa
  have hbval : (is_user_banned wa uid).2 = true := by
    rw [is_user_banned_val w wa uid rfl rfl]
    exact h2
  simp only [run_rate_limit]
  rw [if_neg h0, if_neg (by omega : ¬ 10 ≤ (freshRequests w uid).length)]
  rw [← hwa]
  simp only [run_ban_check]
  rw [if_neg h0, if_pos hbval]

/-- C1 counterexample: user 7 is banned, yet the confirm-delete request
on their ad 100 is not rejected: the stored row is removed and an
external delete is issued, so the claim fails on the delete path. -/
theorem C1_counterexample :
    (is_user_banned bannedOwnerWorld 7).2 = true ∧
    bannedOwnerWorld.db.ads ≠ [] ∧
    ((confirm_delete_handler ⟨-100, 0⟩ bannedOwnerWorld writingSession 7 100).1).db.ads = [] ∧
    Effect.deleteExternal (-100) 100
      ∈ (confirm_delete_handler ⟨-100, 0⟩ bannedOwnerWorld writingSession 7 100).2.2 := by
  refine ⟨by decide, by decide, by decide, by decide⟩

/-- C1 amended: a banned user's create request and text submission are
rejected with the standing notice and leave the database, the session and
the outside world untouched; but confirm_delete performs no ban check, so
a banned user who owns the ad still deletes it (row removed, external
delete issued). -/
theorem C1_banned_requests (cfg : Config) (w : World) (s : Session) (uid : Nat)
    (username : Option String) (chatId : Int) (text : String) (pubOk : Bool) (newMid : Nat)
    (mid : Nat) (r : Row)
    (h0 : uid ≠ 0)
    (h1 : (freshRequests w uid).length < 10)
    (h2 : (is_user_banned w uid).2 = true) :
    ((create_ad_handler w s uid).1.db = w.db ∧
     (create_ad_handler w s uid).2.1 = s ∧
     (create_ad_handler w s uid).2.2 = [Effect.alert bannedNotice]) ∧
    ((ad_text_handler cfg w s uid username chatId text pubOk newMid).1.db = w.db ∧
     (ad_text_handler cfg w s uid username chatId text pubOk newMid).2.1 = s ∧
     (ad_text_handler cfg w s uid username chatId text pubOk newMid).2.2
        = [Effect.alert bannedNotice]) ∧
    (w.cache.find? (fun e => e.key == CKey.ad mid) = none →
     w.db.ads.find? (fun a => a.message_id == mid) = some r →
     r.user_id = uid →
     ((confirm_delete_handler cfg w s uid mid).1.db.ads
        = w.db.ads.filter (fun a => !(a.message_id == mid)) ∧
      Effect.deleteExternal cfg.TARGET_CHAT_ID mid
        ∈ (confirm_delete_handler cfg w s uid mid).2.2)) := by
  set wa : World := { w with rateLim := setBucket w.rateLim uid (freshRequests w uid ++ [w.now]) }
    with hwa
  obtain ⟨hbdb, _, _, _⟩ := is_user_banned_spec wa uid
  have hreject := wrapped_banned_reject w uid s
  refine ⟨?_, ?_, ?_⟩
  · simp only [create_ad_handler]
    rw [hreject _ h0 h1 h2, ← hwa]
    exact ⟨hbdb, rfl, rfl⟩
  · simp only [ad_text_handler]
    rw [hreject _ h0 h1 h2, ← hwa]
    exact ⟨hbdb, rfl, rfl⟩
  · intro hcache hfound howner
    have hcg : cacheGet w.now w.cache (CKey.ad mid) = none :=
      cacheGet_of_find?_none _ _ _ hcache
    have hget : get_ad_by_message_id w mid
        = ({ w with cache := (cacheSet w.now w.cache (CKey.ad mid)
              (CVal.vAd (r.user_id, r.message_id, r.message_url, r.topic_name)) 600) },
           some (r.user_id, r.message_id, r.message_url, r.topic_name)) := by
      simp only [get_ad_by_message_id, hcg, hfound]
    have hfound2 : ({ w with cache := (cacheSet w.now w.cache (CKey.ad mid)
        (CVal.vAd (r.user_id, r.message_id, r.message_url, r.topic_name)) 600) } : World).db.ads.find?
        (fun a => a.message_id == mid) = some r := hfound
    simp only [confirm_delete_handler, hget]
    rw [if_neg (by simp [howner])]
    simp only [delete_user_ad, hfound2]
    constructor
    · split
      · simp only [get_user_limit_db, get_user_ads_with_counts_db]
      · simp only [get_user_limit_db, get_user_ads_with_counts_db]
    · split
      · simp
      · simp

/-- C1 witness: banned user 7 has a create request rejected with the
notice and no change, while their confirm-delete on ad 100 removes the
row. -/
theorem C1_witness :
    ((7 : Nat) ≠ 0 ∧ (freshRequests bannedOwnerWorld 7).length < 10 ∧
     (is_user_banned bannedOwnerWorld 7).2 = true) ∧
    ((create_ad_handler bannedOwnerWorld writingSession 7).1.db = bannedOwnerWorld.db ∧
     (create_ad_handler bannedOwnerWorld writingSession 7).2.1 = writingSession ∧
     (create_ad_handler bannedOwnerWorld writingSession 7).2.2 = [Effect.alert bannedNotice]) ∧
    ((confirm_delete_handler ⟨-100, 0⟩ bannedOwnerWorld writingSession 7 100).1.db.ads
        = bannedOwnerWorld.db.ads.filter (fun a => !(a.message_id == 100)) ∧
     Effect.deleteExternal (⟨-100, 0⟩ : Config).TARGET_CHAT_ID 100
        ∈ (confirm_delete_handler ⟨-100, 0⟩ bannedOwnerWorld writingSession 7 100).2.2) := by
  have h := C1_banned_requests ⟨-100, 0⟩ bannedOwnerWorld writingSession 7 none 77 "x" true 9
    100 ⟨7, 100, "u", "T"⟩ (by decide) (by decide) (by decide)
  exact ⟨⟨by decide, by decide, by decide⟩, h.1, h.2.2 (by decide) (by decide) (by decide)⟩

theorem validateCore_valid_iff (cs : List Char) :
    (validateCore cs).is_valid = true ↔
      (cs.all pySpace = false ∧ cs.length ≤ 4000 ∧ cs.contains '@' = false ∧
       hasHttp cs = false ∧ cs.contains '#' = false ∧ hasDomain cs = false) := by
  unfold validateCore
  split_ifs with h1 h2 h3 h4 h5 h6 <;>
    simp_all

theorem tldBoundary_of (t post : List Char) :
    ∀ n : Nat, t.all Char.isAlpha = true → 2 ≤ n + t.length →
      (∀ c, post.head? = some c → isWordChar c = false) →
      tldBoundary n (t ++ post) = true := by
  induction t with
  | nil =>
    intro n _ hn hpost
    have hn' : 2 ≤ n := by simpa using hn
    cases post with
    | nil => simpa [tldBoundary] using hn'
    | cons c rest =>
      have hc := hpost c rfl
      simp [tldBoundary, hc, hn']
  | cons a t' ih =>
    intro n hall hn hpost
    rw [List.all_cons, Bool.and_eq_true] at hall
    have hn' : 2 ≤ (n + 1) + t'.length := by
      rw [List.length_cons] at hn
      omega
    show tldBoundary n (a :: (t' ++ post)) = true
    simp [tldBoundary, hall.1, ih (n + 1) hall.2 hn' hpost]

theorem tryLabel_of (l t post : List Char)
    (hl : labelOKb l = true) (ht : t.all Char.isAlpha = true) (ht2 : 2 ≤ t.length)
    (hpost : ∀ c, post.head? = some c → isWordChar c = false) :
    tryLabel (l ++ '.' :: (t ++ post)) = true := by
  have hlen : 1 ≤ l.length ∧ l.length ≤ 63 := by
    rw [labelOKb, Bool.and_eq_true, Bool.and_eq_true, Bool.and_eq_true,
      Bool.and_eq_true] at hl
    exact ⟨of_decide_eq_true hl.1.1.1.1, of_decide_eq_true hl.1.1.1.2⟩
  unfold tryLabel
  rw [List.any_eq_true]
  refine ⟨l.length - 1, by rw [List.mem_range]; omega, ?_⟩
  have h1 : l.length - 1 + 1 = l.length := by omega
  simp only [h1, List.take_left, List.drop_left]
  simp [hl, tldBoundary_of t post 0 ht (by omega) hpost]

theorem domainScan_of (pre rest : List Char) :
    ∀ prev : Option Char,
      (pre = [] → prevBoundary prev = true) →
      (∀ c, pre.getLast? = some c → isWordChar c = false) →
      tryLabel rest = true →
      domainScan prev (pre ++ rest) = true := by
  induction pre with
  | nil =>
    intro prev hprev _ htry
    cases rest with
    | nil => exact absurd htry (by decide)
    | cons c rest' =>
      show domainScan prev (c :: rest') = true
      simp [domainScan, hprev rfl, htry]
  | cons p pre' ih =>
    intro prev hprev hlast htry
    show domainScan prev (p :: (pre' ++ rest)) = true
    simp only [domainScan, Bool.or_eq_true]
    refine Or.inr (ih (some p) ?_ ?_ htry)
    · intro hnil
      subst hnil
      simp [prevBoundary, hlast p rfl]
    · intro c hc
      cases pre' with
      | nil => cases hc
      | cons q qs =>
        exact hlast c (by rw [List.getLast?_cons_cons]; exact hc)

theorem DomainBody_split (b : List Char) (hb : DomainBody b) :
    ∃ front l t, b = front ++ (l ++ '.' :: t) ∧ labelOKb l = true ∧
      t.all Char.isAlpha = true ∧ 2 ≤ t.length ∧
      (∀ c, front.getLast? = some c → isWordChar c = false) := by
  induction hb with
  | base l t hl ht =>
    rw [tldOKb, Bool.and_eq_true] at ht
    exact ⟨[], l, t, by simp, hl, ht.2, of_decide_eq_true ht.1, by intro c hc; cases hc⟩
  | cons l b hl hb ih =>
    obtain ⟨front, l', t, hbe, hl', ht, ht2, hfront⟩ := ih
    refine ⟨l ++ '.' :: front, l', t, by rw [hbe]; simp, hl', ht, ht2, ?_⟩
    intro c hc
    rw [List.getLast?_append] at hc
    cases hf : front with
    | nil =>
      subst hf
      have h2 : (['.'] : List Char).getLast?.or l.getLast? = some '.' := rfl
      rw [h2] at hc
      have h3 : c = '.' := by simpa using hc.symm
      rw [h3]
      decide
    | cons f fr =>
      subst hf
      rw [List.getLast?_cons_cons] at hc
      have hsome : (f :: fr).getLast?.isSome = true :=
        List.getLast?_isSome.mpr (by simp)
      obtain ⟨d, hd⟩ := Option.isSome_iff_exists.mp hsome
      rw [hd] at hc
      simp at hc
      rw [← hc]
      exact hfront d hd

theorem hasDomain_of_bounded (s : List Char) (h : ContainsDomainBounded s) :
    hasDomain s = true := by
  obtain ⟨pre, b, post, hs, hb, hpre, hpost⟩ := h
  obtain ⟨front, l, t, hbe, hl, ht, ht2, hfront⟩ := DomainBody_split b hb
  have hs2 : s = (pre ++ front) ++ (l ++ '.' :: (t ++ post)) := by
    rw [hs, hbe]
    simp
  rw [hasDomain, hs2]
  apply domainScan_of
  · intro _
    rfl
  · intro c hc
    rw [List.getLast?_append] at hc
    cases hf : front with
    | nil =>
      subst hf
      simp at hc
      exact hpre c hc
    | cons f fr =>
      subst hf
      have hsome : (f :: fr).getLast?.isSome = true :=
        List.getLast?_isSome.mpr (by simp)
      obtain ⟨d, hd⟩ := Option.isSome_iff_exists.mp hsome
      rw [hd] at hc
      simp at hc
      rw [← hc]
      exact hfront d hd
  · exact tryLabel_of l t post hl ht ht2 hpost

theorem tldBoundary_sound : ∀ (r : List Char) (n : Nat), tldBoundary n r = true →
    ∃ t post, r = t ++ post ∧ t.all Char.isAlpha = true ∧ 2 ≤ n + t.length ∧
      (∀ c, post.head? = some c → isWordChar c = false) := by
  intro r
  induction r with
  | nil =>
    intro n h
    refine ⟨[], [], rfl, rfl, ?_, by intro c hc; cases hc⟩
    have := of_decide_eq_true (by simpa [tldBoundary] using h : decide (2 ≤ n) = true)
    omega
  | cons c rest ih =>
    intro n h
    simp only [tldBoundary, Bool.or_eq_true, Bool.and_eq_true] at h
    rcases h with ⟨h2, hw⟩ | ⟨ha, ht⟩
    · refine ⟨[], c :: rest, rfl, rfl, by simpa using of_decide_eq_true h2, ?_⟩
      intro d hd
      have hd2 : d = c := by simpa using hd.symm
      rw [hd2]
      simpa using hw
    · obtain ⟨t, post, he, hall, hn, hpost⟩ := ih (n + 1) ht
      exact ⟨c :: t, post, by rw [List.cons_append, ← he], by simp [ha, hall],
        by rw [List.length_cons]; omega, hpost⟩

theorem tryLabel_sound (s : List Char) (h : tryLabel s = true) :
    ∃ l t post, s = l ++ '.' :: (t ++ post) ∧ labelOKb l = true ∧
      t.all Char.isAlpha = true ∧ 2 ≤ t.length ∧
      (∀ c, post.head? = some c → isWordChar c = false) := by
  unfold tryLabel at h
  rw [List.any_eq_true] at h
  obtain ⟨i, _, hbody⟩ := h
  rw [Bool.and_eq_true, Bool.and_eq_true] at hbody
  obtain ⟨⟨_, hB⟩, hC⟩ := hbody
  cases hd : s.drop (i + 1) with
  | nil =>
    rw [hd] at hC
    exact absurd hC (by simp)
  | cons c rest =>
    rw [hd] at hC
    rw [Bool.and_eq_true] at hC
    obtain ⟨hdot, htld⟩ := hC
    have hc : c = '.' := by simpa using hdot
    obtain ⟨t, post, he, hall, hn, hpost⟩ := tldBoundary_sound rest 0 htld
    refine ⟨s.take (i + 1), t, post, ?_, hB, hall, by omega, hpost⟩
    conv_lhs => rw [← List.take_append_drop (i + 1) s]
    rw [hd, hc, he]

theorem domainScan_sound : ∀ (s : List Char) (prev : Option Char),
    domainScan prev s = true →
    ∃ pre l t post, s = pre ++ (l ++ '.' :: (t ++ post)) ∧ labelOKb l = true ∧
      t.all Char.isAlpha = true ∧ 2 ≤ t.length ∧
      (pre = [] → prevBoundary prev = true) ∧
      (∀ c, pre.getLast? = some c → isWordChar c = false) ∧
      (∀ c, post.head? = some c → isWordChar c = false) := by
  intro s
  induction s with
  | nil =>
    intro prev h
    exact absurd h (by simp [domainScan])
  | cons c rest ih =>
    intro prev h
    simp only [domainScan, Bool.or_eq_true, Bool.and_eq_true] at h
    rcases h with ⟨hprev, htry⟩ | hrec
    · obtain ⟨l, t, post, he, hl, hall, ht2, hpost⟩ := tryLabel_sound _ htry
      refine ⟨[], l, t, post, ?_, hl, hall, ht2, ?_, ?_, hpost⟩
      · rw [← he]
        rfl
      · intro _
        exact hprev
      · intro d hd
        cases hd
    · obtain ⟨pre, l, t, post, he, hl, hall, ht2, hpre0, hlast, hpost⟩ := ih (some c) hrec
      refine ⟨c :: pre, l, t, post, ?_, hl, hall, ht2, ?_, ?_, hpost⟩
      · rw [List.cons_append, he]
      · intro h0
        cases h0
      intro d hd
      cases hp : pre with
      | nil =>
        subst hp
        have hd2 : d = c := by simpa using hd.symm
        rw [hd2]
        have := hpre0 rfl
        simpa [prevBoundary] using this
      | cons q qs =>
        subst hp
        rw [List.getLast?_cons_cons] at hd
        exact hlast d hd

theorem bounded_of_hasDomain (s : List Char) (h : hasDomain s = true) :
    ContainsDomainBounded s := by
  obtain ⟨pre, l, t, post, he, hl, hall, ht2, _, hlast, hpost⟩ := domainScan_sound s none h
  refine ⟨pre, l ++ '.' :: t, post, by rw [he]; simp, ?_, hlast, hpost⟩
  exact DomainBody.base l t hl (by simp [tldOKb, hall, ht2])

/-- C3 (amended): validate rejects every text containing an at-sign, a
hash, an http(s) scheme (case-insensitive), or a word-boundary-delimited
bare-domain occurrence label(.label)*.tld whose labels are 1-63
characters starting and ending alphanumeric with alphanumeric/hyphen
interior and whose TLD has at least two alphabetic characters (word
characters per Python re, trimming per Python str.strip); and it accepts
every text of length at most 4000 that is non-empty after trimming and
contains none of those patterns. -/
theorem C3_validate (s : String) :
    (s.toList.contains '@' = true → (validate_message_text s).is_valid = false) ∧
    (s.toList.contains '#' = true → (validate_message_text s).is_valid = false) ∧
    (hasHttp s.toList = true → (validate_message_text s).is_valid = false) ∧
    (ContainsDomainBounded s.toList → (validate_message_text s).is_valid = false) ∧
    (s.toList.length ≤ 4000 → s.toList.any (fun c => !pySpace c) = true →
     s.toList.contains '@' = false → s.toList.contains '#' = false →
     hasHttp s.toList = false → ¬ ContainsDomainBounded s.toList →
     (validate_message_text s).is_valid = true) := by
  have key := validateCore_valid_iff s.toList
  have hvm : validate_message_text s = validateCore s.toList := rfl
  refine ⟨?_, ?_, ?_, ?_, ?_⟩
  · intro h
    rw [hvm, Bool.eq_false_iff]
    intro hv
    rw [(key.mp hv).2.2.1] at h
    cases h
  · intro h
    rw [hvm, Bool.eq_false_iff]
    intro hv
    rw [(key.mp hv).2.2.2.2.1] at h
    cases h
  · intro h
    rw [hvm, Bool.eq_false_iff]
    intro hv
    rw [(key.mp hv).2.2.2.1] at h
    cases h
  · intro h
    rw [hvm, Bool.eq_false_iff]
    intro hv
    have hd := hasDomain_of_bounded s.toList h
    rw [(key.mp hv).2.2.2.2.2] at hd
    cases hd
  · intro hlen hne hat hhash hhttp hdom
    rw [hvm]
    rw [key]
    refine ⟨?_, hlen, hat, hhttp, hhash, ?_⟩
    · rw [Bool.eq_false_iff]
      intro hall
      rw [List.any_eq_true] at hne
      obtain ⟨c, hc, hcw⟩ := hne
      rw [List.all_eq_true] at hall
      have := hall c hc
      rw [this] at hcw
      cases hcw
    · cases hdd : hasDomain s.toList with
      | false => rfl
      | true => exact absurd (bounded_of_hasDomain _ hdd) hdom

/-- C3 counterexample: the input a.bc1 contains the claim's literal
bare-domain pattern (label a, TLD bc) as a substring, yet validate
accepts it — the regex requires a trailing word boundary that the digit 1
defeats, so the claim as stated is false. -/
theorem C3_counterexample :
    ContainsClaimDomain ("a.bc1".toList) ∧ (validate_message_text "a.bc1").is_valid = true := by
  constructor
  · refine ⟨[], ['a'], ['b', 'c', '1'], rfl, by decide, ?_⟩
    have h : (['b', 'c', '1'] : List Char) = ['b', 'c'] ++ ['1'] := rfl
    rw [h]
    exact ClaimTail.tld ['b', 'c'] ['1'] (by decide) (by decide)
  · decide

/-- C3 witness: concrete inputs exercising every clause of the amended
validation theorem. -/
theorem C3_witness :
    (validate_message_text "a@b").is_valid = false ∧
    (validate_message_text "x#y").is_valid = false ∧
    (validate_message_text "see HTTPS://x").is_valid = false ∧
    (ContainsDomainBounded ("visit example.com now".toList) ∧
     (validate_message_text "visit example.com now").is_valid = false) ∧
    (validate_message_text "hello world").is_valid = true := by
  have hbd : ContainsDomainBounded ("visit example.com now".toList) := by
    refine ⟨"visit ".toList, "example".toList ++ '.' :: "com".toList, " now".toList,
      rfl, ?_, ?_, ?_⟩
    · exact DomainBody.base _ _ (by decide) (by decide)
    · intro c hc
      have he : ("visit ".toList).getLast? = some ' ' := rfl
      rw [he] at hc
      injection hc with h
      rw [← h]
      decide
    · intro c hc
      have he : (" now".toList).head? = some ' ' := rfl
      rw [he] at hc
      injection hc with h
      rw [← h]
      decide
  refine ⟨(C3_validate "a@b").1 (by decide), (C3_validate "x#y").2.1 (by decide),
    (C3_validate "see HTTPS://x").2.2.1 (by decide),
    ⟨hbd, (C3_validate "visit example.com now").2.2.2.1 hbd⟩,
    (C3_validate "hello world").2.2.2.2 (by decide) (by decide) (by decide) (by decide)
      (by decide) ?_⟩
  intro hC
  have hd := hasDomain_of_bounded _ hC
  rw [(by decide : hasDomain ("hello world".toList) = false)] at hd
  cases hd

/-- The validation model matches the interpreter on non-ASCII inputs: a
Cyrillic word character adjoining a domain defeats the opening word
boundary so the text is accepted, the same text with a space before the
domain is rejected as a site, a lone no-break space trims to empty and is
rejected, and the long s participates in the case-insensitive scheme
match. -/
theorem validate_unicode_agreement :
    (validate_message_text "сайтvk.com тут").is_valid = true ∧
    (validate_message_text "сайт vk.com тут").is_valid = false ∧
    (validate_message_text "\u00A0").is_valid = false ∧
    (validate_message_text "httpſ://x").is_valid = false := by
  refine ⟨by decide, by decide, by decide, by decide⟩
